import Mathlib

/-!
Verification development for the coddle-sleep-coach core: a shallow embedding
of the time utility (src/utils/time.ts), the age-baseline table
(src/utils/ageBaseline.ts), the pattern learner (src/services/learner.ts),
the schedule generator (src/services/scheduler.ts) and the coach rule engine
(src/services/coach.ts), together with theorems about the embedded code.

Modelling conventions:
* A dayjs instant is modelled as a rational number of minutes since the local
  midnight epoch, in a fixed-offset timezone (no DST transition is involved in
  any statement proved here).  JS `number` arithmetic is modelled by exact
  rationals.
* Fallible code (dayjs parse failures, thrown `Error`s in
  `calculateAgeMonths`/`getAgeRange`) is modelled with `Except CoreError`.
* The transcendental library functions `Math.exp` and `Math.sqrt` are passed
  as explicit function parameters (`expFn`, `sqrtFn`); no theorem below
  depends on their values.
* `Math.random()` draws are modelled by an explicit stream `rand : Nat → String`
  of the strings that `Math.random().toString(36).substr(2, 9)` would produce,
  consumed in call order, and `Date.now()` by the explicit `now` instant.
-/

/-! ### JS / dayjs primitives -/

/-- Models JS float-to-int truncation toward zero (the rounding used by
`dayjs.diff`). -/
def jsTrunc (q : ℚ) : ℤ := if q < 0 then -⌊-q⌋ else ⌊q⌋

/-- Models `Math.round`: round half toward positive infinity. -/
def jsRound (q : ℚ) : ℤ := ⌊q + 1 / 2⌋

/-- Models the JS `%` operator on numbers (sign follows the dividend). -/
def jsMod (a b : ℚ) : ℚ := a - b * (jsTrunc (a / b) : ℚ)

/-- Index of the local calendar day an instant falls on. -/
def dayIdx (t : ℚ) : ℤ := ⌊t / 1440⌋

/-- Minutes elapsed since the instant's local midnight, in `[0, 1440)`. -/
def timeOfDay (t : ℚ) : ℚ := t - 1440 * (dayIdx t : ℚ)

/-- Models dayjs `.hour()`: the local hour component, in `[0, 23]`. -/
def hourOf (t : ℚ) : ℤ := ⌊timeOfDay t / 60⌋

/-- Models dayjs `.minute()`: the local minute component, in `[0, 59]`. -/
def minuteOf (t : ℚ) : ℤ := ⌊timeOfDay t⌋ - 60 * hourOf t

/-- Models dayjs `.hour(h)`: set the hour, keeping day, minute and smaller
components; an out-of-range argument carries over, as in JS `Date`. -/
def setHour (t : ℚ) (h : ℤ) : ℚ := t + 60 * ((h : ℚ) - (hourOf t : ℚ))

/-- Models dayjs `.minute(m)`: set the minute, keeping larger and smaller
components; an out-of-range argument (such as 60) carries into the hour,
as in JS `Date.setMinutes`. -/
def setMinute (t : ℚ) (m : ℤ) : ℚ := t + ((m : ℚ) - (minuteOf t : ℚ))

/-- Models dayjs `.second(0)` (as used in `generateBedtime`, always after the
minute has been set): drops the sub-minute part of the instant. -/
def setSecondZero (t : ℚ) : ℚ := t - (timeOfDay t - (⌊timeOfDay t⌋ : ℚ))

/-- Models dayjs `.startOf('day')`. -/
def startOfDay (t : ℚ) : ℚ := 1440 * (dayIdx t : ℚ)

/-- Models dayjs `.endOf('day')`: 23:59:59.999 local, i.e. one millisecond
before the next midnight. -/
def endOfDay (t : ℚ) : ℚ := 1440 * (dayIdx t : ℚ) + 1440 - 1 / 60000

/-- Models dayjs `a.diff(b, 'minute')`: truncated elapsed minutes. -/
def diffMinutes (a b : ℚ) : ℤ := jsTrunc (a - b)

/-- Models dayjs `a.diff(b, 'millisecond')` (the default unit): truncated
elapsed milliseconds. -/
def diffMs (a b : ℚ) : ℤ := jsTrunc ((a - b) * 60000)

/-- Models dayjs `a.diff(b, 'day')`: truncated elapsed days. -/
def diffDays (a b : ℚ) : ℤ := jsTrunc ((a - b) / 1440)

/-- Models dayjs `a.diff(b, 'hour', true)`: exact elapsed hours as a float. -/
def diffHours (a b : ℚ) : ℚ := (a - b) / 60

/-- Models `time.dayKey`: the `YYYY-MM-DD` day-key string is represented by
the local day index (the rendering is injective per timezone). -/
def dayKey (t : ℚ) : ℤ := dayIdx t

/-- Models `time.durationMinutes(startISO, endISO)`:
`end.diff(start, 'minute')`. -/
def durationMinutes (startM endM : ℚ) : ℤ := diffMinutes endM startM

/-- Models JS truthiness of an optional number argument: `undefined` and `0`
are falsy. -/
def jsTruthy (o : Option ℚ) : Bool :=
  match o with
  | none => false
  | some q => q != 0

/-! ### Substring search (used to state rationale-text properties) -/

/-- Whether `pat` occurs at the head of `l`. -/
def seqAt : List Char → List Char → Bool
  | [], _ => true
  | _ :: _, [] => false
  | p :: ps, c :: cs => p == c && seqAt ps cs

/-- Whether `pat` occurs anywhere in `l`. -/
def seqIn (pat : List Char) : List Char → Bool
  | [] => pat.isEmpty
  | c :: cs => seqAt pat (c :: cs) || seqIn pat cs

/-- Whether the string `pat` occurs as a substring of `s`. -/
def containsText (s pat : String) : Bool := seqIn pat.data s.data

/-! ### Stable sorting (models V8's stable `Array.prototype.sort`) -/

/-- Insert `x` after every element `y` with `le y x`; used to build a stable
insertion sort. -/
def insertBy (le : α → α → Bool) (x : α) : List α → List α
  | [] => [x]
  | y :: l => if le y x then y :: insertBy le x l else x :: y :: l

/-- Stable sort: models JS `Array.prototype.sort(cmp)` for a comparator that
induces a total preorder, with `le y x` meaning `cmp(y, x) <= 0`. -/
def sortBy (le : α → α → Bool) (l : List α) : List α :=
  l.foldl (fun acc x => insertBy le x acc) []

/-- Consecutive pairs of a list (the `for i = 1; i < n; i++` pattern over
`(l[i-1], l[i])`). -/
def consecPairs : List α → List (α × α)
  | [] => []
  | [_] => []
  | a :: b :: l => (a, b) :: consecPairs (b :: l)

/-- Models `[...new Set(xs)]`: deduplicate keeping first occurrences in
insertion order. -/
def dedupKeys (l : List ℤ) : List ℤ :=
  l.foldl (fun acc x => if x ∈ acc then acc else acc ++ [x]) []

/-! ### Errors -/

/-- Errors thrown by the embedded core (`throw new Error(...)` sites in
`ageBaseline.ts`). -/
inductive CoreError where
  | invalidBirthDate
  | futureBirthDate
  | negativeAge
deriving DecidableEq, Repr

instance {ε α : Type} [DecidableEq ε] [DecidableEq α] : DecidableEq (Except ε α) := by
  intro a b
  cases a <;> cases b <;> simp <;> infer_instance

/-! ### Domain model (src/types/domain.ts) -/

/-- Models `SleepSession`; `startM`/`endM`/`updatedAtM` are the parsed
instants of the ISO fields. -/
structure SleepSession where
  id : String
  startM : ℚ
  endM : ℚ
  quality : Option ℤ := none
  notes : Option String := none
  source : String := "manual"
  deleted : Bool := false
  updatedAtM : ℚ := 0
deriving DecidableEq, Repr

/-- Models `LearnerState`. -/
structure LearnerState where
  version : ℤ
  ewmaNapLengthMin : ℚ
  ewmaWakeWindowMin : ℚ
  lastUpdatedM : ℚ
  confidence : ℚ
deriving DecidableEq, Repr

/-- Models `BabyProfile`; `birthParsed` is the dayjs parse of `birthDateISO`
(`none` models an unparseable date). -/
structure BabyProfile where
  id : String
  name : String
  birthParsed : Option ℚ
deriving DecidableEq, Repr

/-- Models `ScheduleBlock['kind']`. -/
inductive BlockKind where
  | nap
  | bedtime
  | windDown
deriving DecidableEq, Repr

/-- Models `ScheduleBlock`. -/
structure ScheduleBlock where
  id : String
  kind : BlockKind
  startM : ℚ
  endM : ℚ
  confidence : ℚ
  rationale : String
deriving DecidableEq, Repr

/-- Models `CoachTip['type']`. -/
inductive TipType where
  | warning
  | suggestion
  | info
deriving DecidableEq, Repr

/-- Models `CoachTip['severity']`. -/
inductive Severity where
  | high
  | medium
  | low
deriving DecidableEq, Repr

/-- Models `CoachTip`; `relatedDateKeys` holds day indices (see `dayKey`). -/
structure CoachTip where
  id : String
  type : TipType
  title : String
  message : String
  justification : String
  severity : Severity
  relatedSessionIds : List String
  relatedDateKeys : List ℤ
  createdAtM : ℚ
deriving DecidableEq, Repr

/-! ### Constants (src/config/constants.ts) -/

def EWMA_ALPHA : ℚ := 3 / 10

def MIN_SESSIONS_FOR_LEARNING : ℕ := 3

def MAX_SESSION_AGE_DAYS : ℤ := 30

/-- Models the `CONFIDENCE_PARAMS` object. -/
structure ConfidenceParams where
  minSessions : ℚ
  recencyWeight : ℚ
  consistencyWeight : ℚ
  sessionCountWeight : ℚ

def CONFIDENCE_PARAMS : ConfidenceParams :=
  { minSessions := 5
    recencyWeight := 4 / 10
    consistencyWeight := 3 / 10
    sessionCountWeight := 3 / 10 }

/-- Models the `SCHEDULE_CONFIG.bedtimeRange` object. -/
structure BedtimeRange where
  earliest : ℤ
  latest : ℤ

/-- Models the `SCHEDULE_CONFIG` object. -/
structure ScheduleConfig where
  windDownDurationMin : ℚ
  minNapGapMin : ℚ
  maxNapsPerDay : ℕ
  bedtimeRange : BedtimeRange
  whatIfAdjustmentRange : ℚ

def SCHEDULE_CONFIG : ScheduleConfig :=
  { windDownDurationMin := 30
    minNapGapMin := 60
    maxNapsPerDay := 3
    bedtimeRange := { earliest := 18, latest := 21 }
    whatIfAdjustmentRange := 30 }

/-- Models the `COACH_THRESHOLDS` object. -/
structure CoachThresholds where
  shortNapMinutes : ℚ
  longWakeWindowMultiplier : ℚ
  splitNightGapMinutes : ℤ
  shortNapStreakCount : ℕ

def COACH_THRESHOLDS : CoachThresholds :=
  { shortNapMinutes := 30
    longWakeWindowMultiplier := 12 / 10
    splitNightGapMinutes := 60
    shortNapStreakCount := 3 }

/-! ### Age baseline (src/utils/ageBaseline.ts) -/

/-- Models the `AgeRange` union type. -/
inductive AgeRange where
  | r0to3
  | r4to6
  | r7to9
  | r10to12
  | r13to18
  | r19plus
deriving DecidableEq, Repr

/-- Models the `AgeBaseline` interface. -/
structure AgeBaseline where
  typicalWakeWindowMin : ℚ
  minWakeWindowMin : ℚ
  maxWakeWindowMin : ℚ
  typicalNapLengthMin : ℚ
  minNapLengthMin : ℚ
  maxNapLengthMin : ℚ
  typicalNapCount : ℕ
deriving DecidableEq, Repr

/-- Models the `AGE_BASELINE_TABLE` record as a lookup function. -/
def AGE_BASELINE_TABLE : AgeRange → AgeBaseline
  | .r0to3 =>
    { typicalWakeWindowMin := 60, minWakeWindowMin := 45, maxWakeWindowMin := 90
      typicalNapLengthMin := 60, minNapLengthMin := 30, maxNapLengthMin := 120
      typicalNapCount := 4 }
  | .r4to6 =>
    { typicalWakeWindowMin := 120, minWakeWindowMin := 90, maxWakeWindowMin := 150
      typicalNapLengthMin := 90, minNapLengthMin := 60, maxNapLengthMin := 120
      typicalNapCount := 3 }
  | .r7to9 =>
    { typicalWakeWindowMin := 150, minWakeWindowMin := 120, maxWakeWindowMin := 180
      typicalNapLengthMin := 90, minNapLengthMin := 60, maxNapLengthMin := 120
      typicalNapCount := 2 }
  | .r10to12 =>
    { typicalWakeWindowMin := 180, minWakeWindowMin := 150, maxWakeWindowMin := 210
      typicalNapLengthMin := 90, minNapLengthMin := 60, maxNapLengthMin := 120
      typicalNapCount := 2 }
  | .r13to18 =>
    { typicalWakeWindowMin := 210, minWakeWindowMin := 180, maxWakeWindowMin := 240
      typicalNapLengthMin := 120, minNapLengthMin := 90, maxNapLengthMin := 150
      typicalNapCount := 1 }
  | .r19plus =>
    { typicalWakeWindowMin := 300, minWakeWindowMin := 240, maxWakeWindowMin := 360
      typicalNapLengthMin := 120, minNapLengthMin := 60, maxNapLengthMin := 180
      typicalNapCount := 1 }

/-- Models `calculateAgeMonths(birthDateISO, referenceDateISO)`.  The dayjs
fractional-year diff (calendar-prorated) is modelled as exact linear
proration at 365.25 days per year; no theorem below depends on the numeric
value, only on both call sites of a run using the same value. -/
def calculateAgeMonths (birthParsed : Option ℚ) (referenceM : ℚ) :
    Except CoreError ℚ :=
  match birthParsed with
  | none => .error .invalidBirthDate
  | some b =>
    if b > referenceM then .error .futureBirthDate
    else .ok (max 0 ((referenceM - b) / 525960 * 12))

/-- Models `getAgeRange(ageMonths)`. -/
def getAgeRange (ageMonths : ℚ) : Except CoreError AgeRange :=
  if ageMonths < 0 then .error .negativeAge
  else .ok (if ageMonths < 4 then .r0to3
    else if ageMonths < 7 then .r4to6
    else if ageMonths < 10 then .r7to9
    else if ageMonths < 13 then .r10to12
    else if ageMonths < 19 then .r13to18
    else .r19plus)

/-- Models `getBaselineForAge(ageMonths)`. -/
def getBaselineForAge (ageMonths : ℚ) : Except CoreError AgeBaseline :=
  match getAgeRange ageMonths with
  | .ok r => .ok (AGE_BASELINE_TABLE r)
  | .error e => .error e

/-- Models `getBaselineForBaby(birthDateISO)` at its call sites, where the
reference date defaults to `time.now()` (threaded here as `nowM`). -/
def getBaselineForBaby (birthParsed : Option ℚ) (nowM : ℚ) :
    Except CoreError AgeBaseline :=
  match calculateAgeMonths birthParsed nowM with
  | .ok a => getBaselineForAge a
  | .error e => .error e

/-- Models `clampWakeWindow(wakeWindowMin, ageMonths)`. -/
def clampWakeWindow (wakeWindowMin : ℚ) (ageMonths : ℚ) :
    Except CoreError ℚ :=
  match getBaselineForAge ageMonths with
  | .ok baseline =>
    .ok (max baseline.minWakeWindowMin (min baseline.maxWakeWindowMin wakeWindowMin))
  | .error e => .error e

/-- Models `clampNapLength(napLengthMin, ageMonths)`. -/
def clampNapLength (napLengthMin : ℚ) (ageMonths : ℚ) :
    Except CoreError ℚ :=
  match getBaselineForAge ageMonths with
  | .ok baseline =>
    .ok (max baseline.minNapLengthMin (min baseline.maxNapLengthMin napLengthMin))
  | .error e => .error e

/-! ### Time-range validation (src/utils/time.ts) -/

/-- Models an ISO timestamp string argument by its dayjs parse result
(`none` for a string dayjs cannot parse). -/
structure TimeText where
  parsed : Option ℚ
deriving DecidableEq, Repr

/-- Models the result object of `time.validateRange`. -/
structure RangeValidation where
  isValid : Bool
  error : Option String
deriving DecidableEq, Repr

/-- Models `time.validateRange(startISO, endISO)`. -/
def validateRange (startT endT : TimeText) : RangeValidation :=
  match startT.parsed, endT.parsed with
  | some s, some e =>
    if e > s then { isValid := true, error := none }
    else { isValid := false, error := some "End time must be after start time" }
  | _, _ => { isValid := false, error := some "Invalid date format" }

/-! ### Pattern learner (src/services/learner.ts) -/

/-- Models the `WakeWindow` interface. -/
structure WakeWindow where
  durationMin : ℚ
  endM : ℚ
  ageMonths : ℚ
deriving DecidableEq, Repr

/-- Models the `NapInfo` interface. -/
structure NapInfo where
  durationMin : ℚ
  startM : ℚ
  ageMonths : ℚ
  quality : Option ℤ
deriving DecidableEq, Repr

/-- Loop of `extractWakeWindows` over consecutive pairs of the sorted session
list (`for i = 1; i < sortedSessions.length; i++`). -/
def extractWakeWindowsLoop (birthParsed : Option ℚ) :
    List (SleepSession × SleepSession) → Except CoreError (List WakeWindow)
  | [] => .ok []
  | (prevSession, currentSession) :: rest =>
    let wakeWindowMin : ℚ :=
      (durationMinutes prevSession.endM currentSession.startM : ℚ)
    if 15 ≤ wakeWindowMin ∧ wakeWindowMin ≤ 480 then
      match calculateAgeMonths birthParsed currentSession.startM with
      | .ok ageMonths =>
        match extractWakeWindowsLoop birthParsed rest with
        | .ok tail =>
          .ok ({ durationMin := wakeWindowMin, endM := currentSession.startM,
                 ageMonths := ageMonths } :: tail)
        | .error e => .error e
      | .error e => .error e
    else extractWakeWindowsLoop birthParsed rest

/-- Models `extractWakeWindows(sessions, birthDateISO)`: sessions are sorted
ascending by start (stable, comparator `a.start.diff(b.start)`), then each
consecutive gap in `[15, 480]` minutes is kept. -/
def extractWakeWindows (sessions : List SleepSession) (birthParsed : Option ℚ) :
    Except CoreError (List WakeWindow) :=
  let sortedSessions := sortBy (fun a b => diffMs a.startM b.startM ≤ 0) sessions
  extractWakeWindowsLoop birthParsed (consecPairs sortedSessions)

/-- Loop of `extractNaps` over the session list. -/
def extractNapsLoop (birthParsed : Option ℚ) :
    List SleepSession → Except CoreError (List NapInfo)
  | [] => .ok []
  | session :: rest =>
    let durationMin : ℚ := (durationMinutes session.startM session.endM : ℚ)
    let hour := hourOf session.startM
    if durationMin < 240 ∧ (6 ≤ hour ∧ hour < 20) then
      match calculateAgeMonths birthParsed session.startM with
      | .ok ageMonths =>
        match extractNapsLoop birthParsed rest with
        | .ok tail =>
          .ok ({ durationMin := durationMin, startM := session.startM,
                 ageMonths := ageMonths, quality := session.quality } :: tail)
        | .error e => .error e
      | .error e => .error e
    else extractNapsLoop birthParsed rest

/-- Models `extractNaps(sessions, birthDateISO)`: daytime (start hour in
`[6, 20)`) sessions under 240 minutes. -/
def extractNaps (sessions : List SleepSession) (birthParsed : Option ℚ) :
    Except CoreError (List NapInfo) :=
  extractNapsLoop birthParsed sessions

/-- Models `calculateEWMA(values, previousEWMA, weights?)`.  At every call
site the weights list has the same length as the values list, so the `zip`
truncation never differs from the source's index access. -/
def calculateEWMA (values : List ℚ) (previousEWMA : Option ℚ)
    (weights : Option (List ℚ)) : ℚ :=
  match values with
  | [] => previousEWMA.getD 0
  | v0 :: vrest =>
    match previousEWMA, vrest with
    | some prev, [] => EWMA_ALPHA * v0 + (1 - EWMA_ALPHA) * prev
    | _, _ =>
      let ws :=
        match weights with
        | some w => w
        | none => values.map (fun _ => 1)
      let pairs := values.zip ws
      let weightedSum := pairs.foldl (fun acc p => acc + p.1 * p.2) 0
      let totalWeight := pairs.foldl (fun acc p => acc + p.2) 0
      if totalWeight = 0 then previousEWMA.getD v0
      else
        let average := weightedSum / totalWeight
        match previousEWMA with
        | some prev => EWMA_ALPHA * average + (1 - EWMA_ALPHA) * prev
        | none => average

/-- Models `calculateRecencyWeight(sessionISO)` with the ambient `time.now()`
threaded as `nowM` and `Math.exp` as `expFn`. -/
def calculateRecencyWeight (expFn : ℚ → ℚ) (nowM sessionM : ℚ) : ℚ :=
  let daysAgo := diffDays nowM sessionM
  if daysAgo > MAX_SESSION_AGE_DAYS then 0
  else expFn (-(daysAgo : ℚ) / 10)

/-- Models `calculateConfidence(wakeWindows, naps, currentEWMAWakeWindow,
currentEWMANapLength)` (the two EWMA arguments are unused by the source as
well). -/
def calculateConfidence (expFn sqrtFn : ℚ → ℚ) (nowM : ℚ)
    (wakeWindows : List WakeWindow) (naps : List NapInfo)
    (currentEWMAWakeWindow currentEWMANapLength : ℚ) : ℚ :=
  let totalSessions := wakeWindows.length + naps.length
  if totalSessions < MIN_SESSIONS_FOR_LEARNING then 1 / 10
  else
    let allSessions := wakeWindows.map (fun w => w.endM) ++ naps.map (fun n => n.startM)
    let recencyWeights := allSessions.map (calculateRecencyWeight expFn nowM)
    let avgRecency := recencyWeights.foldl (fun a b => a + b) 0 / (recencyWeights.length : ℚ)
    let consistencyScore :=
      if wakeWindows.length ≥ 3 then
        let durations := wakeWindows.map (fun w => w.durationMin)
        let mean := durations.foldl (fun a b => a + b) 0 / (durations.length : ℚ)
        let variance :=
          durations.foldl (fun sum d => sum + (d - mean) ^ 2) 0 / (durations.length : ℚ)
        let stdDev := sqrtFn variance
        let coefficientOfVariation := if mean > 0 then stdDev / mean else 1
        max 0 (1 - coefficientOfVariation)
      else 1 / 2
    let sessionCountScore := min 1 ((totalSessions : ℚ) / CONFIDENCE_PARAMS.minSessions)
    let confidence :=
      CONFIDENCE_PARAMS.recencyWeight * avgRecency +
      CONFIDENCE_PARAMS.consistencyWeight * consistencyScore +
      CONFIDENCE_PARAMS.sessionCountWeight * sessionCountScore
    min 1 (max (1 / 10) confidence)

/-- Models `updateLearner(sessions, babyProfile, previousState)` with the
ambient `time.now()` threaded as `nowM`. -/
def updateLearner (expFn sqrtFn : ℚ → ℚ) (sessions : List SleepSession)
    (babyProfile : BabyProfile) (previousState : Option LearnerState)
    (nowM : ℚ) : Except CoreError LearnerState :=
  let activeSessions := sessions.filter (fun s => !s.deleted)
  if activeSessions.length < MIN_SESSIONS_FOR_LEARNING then
    match getBaselineForBaby babyProfile.birthParsed nowM,
          calculateAgeMonths babyProfile.birthParsed nowM with
    | .ok baseline, .ok _ageMonths =>
      .ok { version := 1, ewmaNapLengthMin := baseline.typicalNapLengthMin,
            ewmaWakeWindowMin := baseline.typicalWakeWindowMin,
            lastUpdatedM := nowM, confidence := 1 / 10 }
    | .error e, _ => .error e
    | _, .error e => .error e
  else
    match extractWakeWindows activeSessions babyProfile.birthParsed,
          extractNaps activeSessions babyProfile.birthParsed with
    | .ok wakeWindows, .ok naps =>
      match getBaselineForBaby babyProfile.birthParsed nowM,
            calculateAgeMonths babyProfile.birthParsed nowM with
      | .ok baseline, .ok ageMonths =>
        let ewmaWakeWindowE : Except CoreError ℚ :=
          if wakeWindows.isEmpty then .ok baseline.typicalWakeWindowMin
          else
            let sortedWindows := sortBy (fun a b => diffMs b.endM a.endM ≤ 0) wakeWindows
            let recentWindows := sortedWindows.filter (fun w => diffDays nowM w.endM ≤ 14)
            let windowsUsed := if recentWindows.length > 0 then recentWindows else sortedWindows
            let windowDurations := windowsUsed.map (fun w => w.durationMin)
            let recencyWeights :=
              windowsUsed.map (fun w => calculateRecencyWeight expFn nowM w.endM)
            let previousWakeWindow :=
              (previousState.map (fun st => st.ewmaWakeWindowMin)).getD
                baseline.typicalWakeWindowMin
            clampWakeWindow
              (calculateEWMA windowDurations (some previousWakeWindow) (some recencyWeights))
              ageMonths
        let ewmaNapLengthE : Except CoreError ℚ :=
          if naps.isEmpty then .ok baseline.typicalNapLengthMin
          else
            let sortedNaps := sortBy (fun a b => diffMs b.startM a.startM ≤ 0) naps
            let recentNaps := sortedNaps.filter (fun n => diffDays nowM n.startM ≤ 14)
            let napsUsed := if recentNaps.length > 0 then recentNaps else sortedNaps
            let napDurations := napsUsed.map (fun n => n.durationMin)
            let recencyWeights :=
              napsUsed.map (fun n => calculateRecencyWeight expFn nowM n.startM)
            let previousNapLength :=
              (previousState.map (fun st => st.ewmaNapLengthMin)).getD
                baseline.typicalNapLengthMin
            clampNapLength
              (calculateEWMA napDurations (some previousNapLength) (some recencyWeights))
              ageMonths
        match ewmaWakeWindowE, ewmaNapLengthE with
        | .ok ewmaWakeWindow, .ok ewmaNapLength =>
          .ok { version := 1, ewmaNapLengthMin := ewmaNapLength,
                ewmaWakeWindowMin := ewmaWakeWindow, lastUpdatedM := nowM,
                confidence :=
                  calculateConfidence expFn sqrtFn nowM wakeWindows naps
                    ewmaWakeWindow ewmaNapLength }
        | .error e, _ => .error e
        | _, .error e => .error e
      | .error e, _ => .error e
      | _, .error e => .error e
    | .error e, _ => .error e
    | _, .error e => .error e

/-- Models `getLearnedWakeWindow(learnerState, babyProfile)` with the ambient
`time.now()` threaded as `nowM`. -/
def getLearnedWakeWindow (learnerState : Option LearnerState)
    (babyProfile : BabyProfile) (nowM : ℚ) : Except CoreError ℚ :=
  match learnerState with
  | some st =>
    if st.confidence > 1 / 5 then .ok st.ewmaWakeWindowMin
    else
      match getBaselineForBaby babyProfile.birthParsed nowM with
      | .ok baseline => .ok baseline.typicalWakeWindowMin
      | .error e => .error e
  | none =>
    match getBaselineForBaby babyProfile.birthParsed nowM with
    | .ok baseline => .ok baseline.typicalWakeWindowMin
    | .error e => .error e

/-- Models `getLearnedNapLength(learnerState, babyProfile)` with the ambient
`time.now()` threaded as `nowM`. -/
def getLearnedNapLength (learnerState : Option LearnerState)
    (babyProfile : BabyProfile) (nowM : ℚ) : Except CoreError ℚ :=
  match learnerState with
  | some st =>
    if st.confidence > 1 / 5 then .ok st.ewmaNapLengthMin
    else
      match getBaselineForBaby babyProfile.birthParsed nowM with
      | .ok baseline => .ok baseline.typicalNapLengthMin
      | .error e => .error e
  | none =>
    match getBaselineForBaby babyProfile.birthParsed nowM with
    | .ok baseline => .ok baseline.typicalNapLengthMin
    | .error e => .error e

/-! ### Schedule generator (src/services/scheduler.ts) -/

/-- Models the `ScheduleOptions` interface (`referenceTimeISO` parsed). -/
structure ScheduleOptions where
  wakeWindowAdjustmentMin : Option ℚ := none
  referenceTimeM : Option ℚ := none
deriving DecidableEq, Repr

/-- Rendering of a `ScheduleBlock['kind']` literal. -/
def kindName : BlockKind → String
  | .nap => "nap"
  | .bedtime => "bedtime"
  | .windDown => "windDown"

/-- Models `generateBlockId(kind, startISO)`; the `YYYY-MM-DD_HH-mm`
rendering of the start instant is modelled injectively from the local day
index, hour and minute. -/
def generateBlockId (kind : BlockKind) (startM : ℚ) : String :=
  "schedule_" ++ kindName kind ++ "_" ++ toString (dayIdx startM) ++ "_" ++
    toString (hourOf startM) ++ "-" ++ toString (minuteOf startM)

/-- Models `generateRationale(kind, learnerState, wakeWindowMin,
napLengthMin, isWhatIf)`. -/
def generateRationale (kind : BlockKind) (learnerState : Option LearnerState)
    (wakeWindowMin napLengthMin : ℚ) (isWhatIf : Bool) : String :=
  let confidence := (learnerState.map (fun st => st.confidence)).getD 0
  let confidenceLevel :=
    if confidence > 7 / 10 then "high"
    else if confidence > 2 / 5 then "moderate"
    else "low"
  if isWhatIf then
    "What-if scenario: " ++ toString (jsRound wakeWindowMin) ++ "min wake window"
  else
    match kind with
    | .nap =>
      if learnerState.isSome ∧ confidence > 1 / 5 then
        "Based on learned pattern (" ++ confidenceLevel ++ " confidence): " ++
          toString (jsRound wakeWindowMin) ++ "min wake window, " ++
          toString (jsRound napLengthMin) ++ "min nap"
      else
        "Based on age baseline: " ++ toString (jsRound wakeWindowMin) ++
          "min wake window, " ++ toString (jsRound napLengthMin) ++ "min nap"
    | .bedtime =>
      if learnerState.isSome ∧ confidence > 1 / 5 then
        "Learned bedtime pattern (" ++ confidenceLevel ++ " confidence)"
      else "Age-appropriate bedtime window"
    | .windDown =>
      "Start wind-down " ++ toString SCHEDULE_CONFIG.windDownDurationMin ++
        " minutes before sleep"

/-- Models `calculateBlockConfidence(learnerState, blockStartISO,
referenceTimeISO)`. -/
def calculateBlockConfidence (learnerState : Option LearnerState)
    (blockStartM referenceTimeM : ℚ) : ℚ :=
  let baseConfidence := (learnerState.map (fun st => st.confidence)).getD (3 / 10)
  let hoursAhead := diffHours blockStartM referenceTimeM
  let timeDecay := min (1 / 2) (hoursAhead * (5 / 100))
  max (1 / 10) (baseConfidence * (1 - timeDecay))

/-- Loop of `generateNaps` (`for i = 0; i < maxNaps; i++`), with
`currentTime` threaded. -/
def generateNapsLoop (wakeWindowMin napLengthMin : ℚ)
    (learnerState : Option LearnerState) (referenceTimeM : ℚ) :
    ℕ → ℚ → List ScheduleBlock
  | 0, _ => []
  | n + 1, currentTime =>
    let napStart := currentTime + wakeWindowMin
    if hourOf napStart ≥ 18 then []
    else if napStart > endOfDay referenceTimeM then []
    else
      let napEnd := napStart + napLengthMin
      { id := generateBlockId .nap napStart, kind := .nap,
        startM := napStart, endM := napEnd,
        confidence := calculateBlockConfidence learnerState napStart referenceTimeM,
        rationale := generateRationale .nap learnerState wakeWindowMin napLengthMin false } ::
        generateNapsLoop wakeWindowMin napLengthMin learnerState referenceTimeM n napEnd

/-- Models `generateNaps(startFromISO, wakeWindowMin, napLengthMin,
learnerState, referenceTimeISO, maxNaps)`. -/
def generateNaps (startFromM wakeWindowMin napLengthMin : ℚ)
    (learnerState : Option LearnerState) (referenceTimeM : ℚ)
    (maxNaps : ℕ := SCHEDULE_CONFIG.maxNapsPerDay) : List ScheduleBlock :=
  generateNapsLoop wakeWindowMin napLengthMin learnerState referenceTimeM
    maxNaps startFromM

/-- Models `generateBedtime(lastWakeTimeISO, wakeWindowMin, learnerState,
referenceTimeISO)`.  The source's nullable return is never `null`; the block
is returned directly. -/
def generateBedtime (lastWakeTimeM wakeWindowMin : ℚ)
    (learnerState : Option LearnerState) (referenceTimeM : ℚ) : ScheduleBlock :=
  let bedtime0 := lastWakeTimeM + wakeWindowMin
  let bedtimeHour := hourOf bedtime0
  let bedtime :=
    if bedtimeHour < SCHEDULE_CONFIG.bedtimeRange.earliest then
      setSecondZero (setMinute (setHour bedtime0 SCHEDULE_CONFIG.bedtimeRange.earliest) 0)
    else if bedtimeHour > SCHEDULE_CONFIG.bedtimeRange.latest then
      setSecondZero (setMinute (setHour bedtime0 SCHEDULE_CONFIG.bedtimeRange.latest) 0)
    else
      let minutes := minuteOf bedtime0
      let roundedMinutes := jsRound ((minutes : ℚ) / 15) * 15
      setSecondZero (setMinute bedtime0 roundedMinutes)
  { id := generateBlockId .bedtime bedtime, kind := .bedtime,
    startM := bedtime, endM := bedtime + 600,
    confidence := calculateBlockConfidence learnerState bedtime referenceTimeM,
    rationale := generateRationale .bedtime learnerState wakeWindowMin 0 false }

/-- Models `generateWindDown(bedtimeISO, learnerState)`. -/
def generateWindDown (bedtimeM : ℚ) (learnerState : Option LearnerState) :
    ScheduleBlock :=
  let windDownStart := bedtimeM - SCHEDULE_CONFIG.windDownDurationMin
  { id := generateBlockId .windDown windDownStart, kind := .windDown,
    startM := windDownStart, endM := bedtimeM,
    confidence := (learnerState.map (fun st => st.confidence)).getD (3 / 10),
    rationale := generateRationale .windDown learnerState 0 0 false }

/-- The `referenceTime` local of `generateDaySchedule`:
`options.referenceTimeISO || time.nowISO()`. -/
def scheduleReferenceTime (options : ScheduleOptions) (nowM : ℚ) : ℚ :=
  options.referenceTimeM.getD nowM

/-- The `wakeWindowMin` local of `generateDaySchedule` after the optional
what-if adjustment. -/
def effectiveWakeWindow (options : ScheduleOptions) (wakeWindowMin0 : ℚ) : ℚ :=
  if jsTruthy options.wakeWindowAdjustmentMin then
    max 30 (wakeWindowMin0 + options.wakeWindowAdjustmentMin.getD 0)
  else wakeWindowMin0

/-- The `lastWakeTime` local of `generateDaySchedule`: end of the latest
session on the target day, else the reference time or 7:00 AM local. -/
def dayLastWakeTime (dayStartM : ℚ) (sessions : List SleepSession)
    (options : ScheduleOptions) (nowM : ℚ) : ℚ :=
  let referenceTime := scheduleReferenceTime options nowM
  let dayStart := startOfDay dayStartM
  let daySessions :=
    sortBy (fun a b => diffMs b.endM a.endM ≤ 0)
      (sessions.filter (fun s => !s.deleted && dayKey s.startM == dayKey dayStartM))
  match daySessions with
  | s :: _ => s.endM
  | [] => if referenceTime > dayStart then referenceTime else setHour dayStart 7

/-- The `naps` local of `generateDaySchedule` (nap blocks, with the what-if
rationale rewrite applied). -/
def dayNaps (dayStartM : ℚ) (sessions : List SleepSession)
    (learnerState : Option LearnerState) (options : ScheduleOptions)
    (nowM : ℚ) (wakeWindowMin0 napLengthMin : ℚ) : List ScheduleBlock :=
  let wakeWindowMin := effectiveWakeWindow options wakeWindowMin0
  let naps0 :=
    generateNaps (dayLastWakeTime dayStartM sessions options nowM) wakeWindowMin
      napLengthMin learnerState (scheduleReferenceTime options nowM)
      SCHEDULE_CONFIG.maxNapsPerDay
  if jsTruthy options.wakeWindowAdjustmentMin then
    naps0.map (fun nap =>
      { nap with rationale :=
          generateRationale .nap learnerState wakeWindowMin napLengthMin true })
  else naps0

/-- The `bedtime` local of `generateDaySchedule` (with the what-if rationale
rewrite applied). -/
def dayBedtime (dayStartM : ℚ) (sessions : List SleepSession)
    (learnerState : Option LearnerState) (options : ScheduleOptions)
    (nowM : ℚ) (wakeWindowMin0 napLengthMin : ℚ) : ScheduleBlock :=
  let wakeWindowMin := effectiveWakeWindow options wakeWindowMin0
  let naps := dayNaps dayStartM sessions learnerState options nowM wakeWindowMin0 napLengthMin
  let lastNapEnd :=
    match naps.getLast? with
    | some nap => nap.endM
    | none => dayLastWakeTime dayStartM sessions options nowM
  let bedtime0 :=
    generateBedtime lastNapEnd wakeWindowMin learnerState
      (scheduleReferenceTime options nowM)
  if jsTruthy options.wakeWindowAdjustmentMin then
    { bedtime0 with rationale :=
        generateRationale .bedtime learnerState wakeWindowMin 0 true }
  else bedtime0

/-- The `windDown` local of `generateDaySchedule` (with the what-if
rationale rewrite applied). -/
def dayWindDown (dayStartM : ℚ) (sessions : List SleepSession)
    (learnerState : Option LearnerState) (options : ScheduleOptions)
    (nowM : ℚ) (wakeWindowMin0 napLengthMin : ℚ) : ScheduleBlock :=
  let windDown0 :=
    generateWindDown
      (dayBedtime dayStartM sessions learnerState options nowM wakeWindowMin0
        napLengthMin).startM learnerState
  if jsTruthy options.wakeWindowAdjustmentMin then
    { windDown0 with rationale := generateRationale .windDown learnerState 0 0 true }
  else windDown0

/-- Body of `generateDaySchedule` after the two learned-value lookups (the
only fallible steps), decomposed into the locals above: the nap blocks, then
the wind-down and bedtime blocks, sorted by start time. -/
def generateDayScheduleBlocks (dayStartM : ℚ) (sessions : List SleepSession)
    (learnerState : Option LearnerState) (options : ScheduleOptions)
    (nowM : ℚ) (wakeWindowMin0 napLengthMin : ℚ) : List ScheduleBlock :=
  sortBy (fun a b => diffMs a.startM b.startM ≤ 0)
    (dayNaps dayStartM sessions learnerState options nowM wakeWindowMin0 napLengthMin ++
      [dayWindDown dayStartM sessions learnerState options nowM wakeWindowMin0 napLengthMin,
       dayBedtime dayStartM sessions learnerState options nowM wakeWindowMin0 napLengthMin])

/-- Models `generateDaySchedule(dayStartISO, sessions, learnerState,
babyProfile, options)` with the ambient `time.now()` threaded as `nowM`
(`dayStartM` is the parse of the day-key string, i.e. local midnight; the
source's unused `dayEnd` local is omitted). -/
def generateDaySchedule (dayStartM : ℚ) (sessions : List SleepSession)
    (learnerState : Option LearnerState) (babyProfile : BabyProfile)
    (options : ScheduleOptions) (nowM : ℚ) :
    Except CoreError (List ScheduleBlock) :=
  match getLearnedWakeWindow learnerState babyProfile nowM,
        getLearnedNapLength learnerState babyProfile nowM with
  | .ok wakeWindowMin0, .ok napLengthMin =>
    .ok (generateDayScheduleBlocks dayStartM sessions learnerState options nowM
      wakeWindowMin0 napLengthMin)
  | .error e, _ => .error e
  | _, .error e => .error e

/-- Models the `{ today, tomorrow }` result record of `generateSchedule`. -/
structure SchedulePair where
  today : List ScheduleBlock
  tomorrow : List ScheduleBlock
deriving DecidableEq, Repr

/-- Models `generateSchedule(sessions, learnerState, babyProfile, options)`
with the ambient `time.now()` threaded as `nowM`. -/
def generateSchedule (sessions : List SleepSession)
    (learnerState : Option LearnerState) (babyProfile : BabyProfile)
    (options : ScheduleOptions) (nowM : ℚ) : Except CoreError SchedulePair :=
  let referenceTime := options.referenceTimeM.getD nowM
  let today := startOfDay referenceTime
  let tomorrow := startOfDay (referenceTime + 1440)
  match generateDaySchedule today sessions learnerState babyProfile options nowM with
  | .ok todayBlocks =>
    let todayFiltered :=
      todayBlocks.filter (fun block =>
        block.startM > referenceTime || ⌊block.startM⌋ == ⌊referenceTime⌋)
    match generateDaySchedule tomorrow sessions learnerState babyProfile options nowM with
    | .ok tomorrowBlocks => .ok { today := todayFiltered, tomorrow := tomorrowBlocks }
    | .error e => .error e
  | .error e => .error e

/-- Models `generateWhatIfSchedule(sessions, learnerState, babyProfile,
wakeWindowAdjustmentMin)`. -/
def generateWhatIfSchedule (sessions : List SleepSession)
    (learnerState : Option LearnerState) (babyProfile : BabyProfile)
    (wakeWindowAdjustmentMin : ℚ) (nowM : ℚ) : Except CoreError SchedulePair :=
  let clampedAdjustment :=
    max (-SCHEDULE_CONFIG.whatIfAdjustmentRange)
      (min SCHEDULE_CONFIG.whatIfAdjustmentRange wakeWindowAdjustmentMin)
  generateSchedule sessions learnerState babyProfile
    { wakeWindowAdjustmentMin := some clampedAdjustment } nowM

/-- Models `getAllScheduleBlocks(sessions, learnerState, babyProfile,
options)`. -/
def getAllScheduleBlocks (sessions : List SleepSession)
    (learnerState : Option LearnerState) (babyProfile : BabyProfile)
    (options : ScheduleOptions) (nowM : ℚ) :
    Except CoreError (List ScheduleBlock) :=
  match generateSchedule sessions learnerState babyProfile options nowM with
  | .ok pair => .ok (pair.today ++ pair.tomorrow)
  | .error e => .error e

/-! ### Coach rule engine (src/services/coach.ts) -/

/-- Models `generateTipId()`: `Date.now()` is the (injectively rendered)
reference instant `nowM` and the `Math.random().toString(36).substr(2, 9)`
draw is the supplied string. -/
def generateTipId (nowM : ℚ) (draw : String) : String :=
  "tip_" ++ toString nowM ++ "_" ++ draw

/-- Models `detectShortNapStreak(sessions, babyProfile)`; `rand`/`k` model
the `Math.random()` stream and the index of the next unconsumed draw, `nowM`
the ambient `time.now()`.  The `babyProfile` parameter is unused by the
source as well. -/
def detectShortNapStreak (rand : ℕ → String) (k : ℕ) (nowM : ℚ)
    (sessions : List SleepSession) (babyProfile : BabyProfile) : Option CoachTip :=
  let _ := babyProfile
  let recentSessions :=
    sessions.filter (fun s => diffDays nowM s.startM ≤ 5 && !s.deleted)
  let naps := recentSessions.filter (fun session =>
    durationMinutes session.startM session.endM < 240 &&
      (6 ≤ hourOf session.startM && hourOf session.startM < 20))
  let sortedNaps := sortBy (fun a b => diffMs b.startM a.startM ≤ 0) naps
  let recentNaps := sortedNaps.take 5
  let shortNaps := recentNaps.filter (fun nap =>
    (durationMinutes nap.startM nap.endM : ℚ) < COACH_THRESHOLDS.shortNapMinutes)
  if shortNaps.length ≥ COACH_THRESHOLDS.shortNapStreakCount then
    some
      { id := generateTipId nowM (rand k)
        type := .warning
        title := "Short Nap Streak"
        message := "Baby had " ++ toString shortNaps.length ++
          " short naps (less than " ++ toString COACH_THRESHOLDS.shortNapMinutes ++
          " minutes) recently. Consider earlier bedtime to prevent overtiredness."
        justification := "Detected " ++ toString shortNaps.length ++
          " short naps in the last " ++ toString recentNaps.length ++
          " naps. Short naps can indicate overtiredness or schedule issues."
        severity := if shortNaps.length ≥ 4 then .high else .medium
        relatedSessionIds := shortNaps.map (fun n => n.id)
        relatedDateKeys := dedupKeys (shortNaps.map (fun n => dayKey n.startM))
        createdAtM := nowM }
  else none

/-- Models `detectOvertiredWarning(sessions, learnerState, babyProfile)`.
The justification's percentage divides by `learnedWakeWindow`; the rational
convention `x / 0 = 0` stands in for the JS `Infinity` of a degenerate
caller-supplied zero wake window, which no theorem below touches. -/
def detectOvertiredWarning (rand : ℕ → String) (k : ℕ) (nowM : ℚ)
    (sessions : List SleepSession) (learnerState : Option LearnerState)
    (babyProfile : BabyProfile) : Except CoreError (Option CoachTip) :=
  let recentSessions :=
    sortBy (fun a b => diffMs a.startM b.startM ≤ 0)
      (sessions.filter (fun s => diffDays nowM s.startM ≤ 7 && !s.deleted))
  if recentSessions.length < 2 then .ok none
  else
    match getLearnedWakeWindow learnerState babyProfile nowM with
    | .error e => .error e
    | .ok learnedWakeWindow =>
      let threshold := learnedWakeWindow * COACH_THRESHOLDS.longWakeWindowMultiplier
      let longWakeWindows := (consecPairs recentSessions).filterMap (fun pc =>
        let wakeWindowMin : ℚ := (durationMinutes pc.1.endM pc.2.startM : ℚ)
        if 15 ≤ wakeWindowMin ∧ wakeWindowMin ≤ 480 ∧ wakeWindowMin > threshold then
          some (pc.2, wakeWindowMin)
        else none)
      match longWakeWindows with
      | [] => .ok none
      | h :: t =>
        let longest := t.foldl (fun mx w => if w.2 > mx.2 then w else mx) h
        let hours := ⌊longest.2 / 60⌋
        let minutes := jsRound (jsMod longest.2 60)
        let targetHours := ⌊learnedWakeWindow / 60⌋
        let targetMinutes := jsRound (jsMod learnedWakeWindow 60)
        let minsStr := if minutes < 10 then "0" ++ toString minutes else toString minutes
        let targetMinsStr :=
          if targetMinutes < 10 then "0" ++ toString targetMinutes
          else toString targetMinutes
        .ok (some
          { id := generateTipId nowM (rand k)
            type := .warning
            title := "Overtired Warning"
            message := "Baby\x27s wake window was " ++ toString hours ++ "h " ++
              minsStr ++ "m (target: " ++ toString targetHours ++ "h " ++
              targetMinsStr ++ "m). Try starting wind-down 15 minutes earlier next time."
            justification := "Wake window of " ++ toString (jsRound longest.2) ++
              " minutes exceeds learned target of " ++
              toString (jsRound learnedWakeWindow) ++ " minutes by " ++
              toString (jsRound ((longest.2 / learnedWakeWindow - 1) * 100)) ++ "%."
            severity :=
              if longest.2 > learnedWakeWindow * (3 / 2) then .high else .medium
            relatedSessionIds := [longest.1.id]
            relatedDateKeys := [dayKey longest.1.startM]
            createdAtM := nowM })

/-- Models `detectBedtimeShift(sessions, learnerState, babyProfile)` (the
`learnerState` parameter is unused by the source as well; the fetched
baseline is likewise unused but its errors propagate). -/
def detectBedtimeShift (rand : ℕ → String) (k : ℕ) (nowM : ℚ)
    (sessions : List SleepSession) (learnerState : Option LearnerState)
    (babyProfile : BabyProfile) : Except CoreError (Option CoachTip) :=
  let _ := learnerState
  let recentSessions :=
    sortBy (fun a b => diffMs a.startM b.startM ≤ 0)
      (sessions.filter (fun s => diffDays nowM s.startM ≤ 3 && !s.deleted))
  let bedtimes := recentSessions.filterMap (fun session =>
    if hourOf session.startM ≥ 18 ∧
        (durationMinutes session.startM session.endM : ℚ) ≥ 240 then
      some (session, hourOf session.startM, minuteOf session.startM)
    else none)
  if bedtimes.length < 2 then .ok none
  else
    match getBaselineForBaby babyProfile.birthParsed nowM with
    | .error e => .error e
    | .ok _baseline =>
      let typicalBedtimeHour : ℤ := 19
      let bedtimeShiftThreshold : ℚ := 30
      let totalMinutes :=
        bedtimes.foldl (fun sum b => sum + ((b.2.1 * 60 + b.2.2 : ℤ) : ℚ)) 0
      let avgBedtimeMin := totalMinutes / (bedtimes.length : ℚ)
      let avgBedtimeHour := ⌊avgBedtimeMin / 60⌋
      let avgBedtimeMinRemainder := jsMod avgBedtimeMin 60
      let typicalBedtimeMin : ℚ := ((typicalBedtimeHour * 60 : ℤ) : ℚ)
      let shiftMinutes := avgBedtimeMin - typicalBedtimeMin
      if |shiftMinutes| > bedtimeShiftThreshold then
        let shiftDirection := if shiftMinutes > 0 then "later" else "earlier"
        let shiftHours := ⌊|shiftMinutes| / 60⌋
        let shiftMins := jsRound (jsMod |shiftMinutes| 60)
        let shiftMinsStr :=
          if shiftMins < 10 then "0" ++ toString shiftMins else toString shiftMins
        let avgMinsRounded := jsRound avgBedtimeMinRemainder
        let avgMinsStr :=
          if avgMinsRounded < 10 then "0" ++ toString avgMinsRounded
          else toString avgMinsRounded
        .ok (some
          { id := generateTipId nowM (rand k)
            type := .suggestion
            title := "Bedtime Shift Detected"
            message := "Bedtime has shifted " ++ toString shiftHours ++ "h " ++
              shiftMinsStr ++ "m " ++ shiftDirection ++ " (average: " ++
              toString avgBedtimeHour ++ ":" ++ avgMinsStr ++
              "). This might indicate baby needs more daytime sleep."
            justification := "Average bedtime over last " ++
              toString bedtimes.length ++ " nights is " ++
              toString (jsRound |shiftMinutes|) ++ " minutes " ++ shiftDirection ++
              " than typical bedtime of " ++ toString typicalBedtimeHour ++ ":00."
            severity := if |shiftMinutes| > 60 then .high else .medium
            relatedSessionIds := bedtimes.map (fun b => b.1.id)
            relatedDateKeys := dedupKeys (bedtimes.map (fun b => dayKey b.1.startM))
            createdAtM := nowM })
      else .ok none

/-- Loop of `detectSplitNight` over the day keys of
`Object.entries(sessionsByDay)` (insertion order). -/
def detectSplitNightLoop (rand : ℕ → String) (k : ℕ) (nowM : ℚ)
    (recentSessions : List SleepSession) : List ℤ → Option CoachTip
  | [] => none
  | dk :: rest =>
    let daySessions := recentSessions.filter (fun s => dayKey s.startM == dk)
    let nightSessions0 := daySessions.filter (fun s =>
      hourOf s.startM ≥ 18 && durationMinutes s.startM s.endM ≥ 240)
    if nightSessions0.length ≥ 2 then
      let nightSessions := sortBy (fun a b => diffMs a.startM b.startM ≤ 0) nightSessions0
      match (consecPairs nightSessions).find? (fun pc =>
          diffMinutes pc.2.startM pc.1.endM > COACH_THRESHOLDS.splitNightGapMinutes) with
      | some pc =>
        let gapMinutes := diffMinutes pc.2.startM pc.1.endM
        let gapHours := ⌊(gapMinutes : ℚ) / 60⌋
        let gapMins := jsRound (jsMod (gapMinutes : ℚ) 60)
        let gapMinsStr :=
          if gapMins < 10 then "0" ++ toString gapMins else toString gapMins
        some
          { id := generateTipId nowM (rand k)
            type := .warning
            title := "Split Night Detected"
            message := "Night sleep was interrupted with a " ++ toString gapHours ++
              "h " ++ gapMinsStr ++
              "m wake period. Consider adjusting daytime schedule to prevent split nights."
            justification := "Found " ++ toString nightSessions.length ++
              " night sleep sessions on " ++ toString dk ++ " with a " ++
              toString (jsRound (gapMinutes : ℚ)) ++ "-minute gap between them."
            severity := if gapMinutes > 120 then .high else .medium
            relatedSessionIds := nightSessions.map (fun s => s.id)
            relatedDateKeys := [dk]
            createdAtM := nowM }
      | none => detectSplitNightLoop rand k nowM recentSessions rest
    else detectSplitNightLoop rand k nowM recentSessions rest

/-- Models `detectSplitNight(sessions, babyProfile)` (the profile parameter
is unused by the source as well). -/
def detectSplitNight (rand : ℕ → String) (k : ℕ) (nowM : ℚ)
    (sessions : List SleepSession) : Option CoachTip :=
  let recentSessions :=
    sortBy (fun a b => diffMs a.startM b.startM ≤ 0)
      (sessions.filter (fun s => diffDays nowM s.startM ≤ 3 && !s.deleted))
  detectSplitNightLoop rand k nowM recentSessions
    (dedupKeys (recentSessions.map (fun s => dayKey s.startM)))

/-- Models the `severityOrder` lookup of the final sort. -/
def severityOrder : Severity → ℤ
  | .high => 3
  | .medium => 2
  | .low => 1

/-- Models the comparator of the final `tips.sort`. -/
def tipCmp (a b : CoachTip) : ℤ :=
  let severityDiff := severityOrder b.severity - severityOrder a.severity
  if severityDiff ≠ 0 then severityDiff else diffMs b.createdAtM a.createdAtM

/-- Models `generateCoachTips(sessions, learnerState, babyProfile)` with the
ambient `time.now()`/`Date.now()` threaded as `nowM` and the `Math.random()`
stream as `rand` (consumed in detector order). -/
def generateCoachTips (rand : ℕ → String) (nowM : ℚ)
    (sessions : List SleepSession) (learnerState : Option LearnerState)
    (babyProfile : BabyProfile) : Except CoreError (List CoachTip) :=
  let activeSessions := sessions.filter (fun s => !s.deleted)
  if activeSessions.length < 3 then .ok []
  else
    let shortNapTip := detectShortNapStreak rand 0 nowM activeSessions babyProfile
    let k1 := if shortNapTip.isSome then 1 else 0
    match detectOvertiredWarning rand k1 nowM activeSessions learnerState babyProfile with
    | .error e => .error e
    | .ok overtiredTip =>
      let k2 := k1 + if overtiredTip.isSome then 1 else 0
      match detectBedtimeShift rand k2 nowM activeSessions learnerState babyProfile with
      | .error e => .error e
      | .ok bedtimeShiftTip =>
        let k3 := k2 + if bedtimeShiftTip.isSome then 1 else 0
        let splitNightTip := detectSplitNight rand k3 nowM activeSessions
        let tips :=
          [shortNapTip, overtiredTip, bedtimeShiftTip, splitNightTip].filterMap id
        .ok (sortBy (fun a b => tipCmp a b ≤ 0) tips)

/-- Models `getTipsForDate(tips, dateKey)`. -/
def getTipsForDate (tips : List CoachTip) (dateKeyIdx : ℤ) : List CoachTip :=
  tips.filter (fun tip => tip.relatedDateKeys.contains dateKeyIdx)

/-! ### General lemmas about the list helpers -/

theorem insertBy_perm (le : α → α → Bool) (x : α) (l : List α) :
    (insertBy le x l).Perm (x :: l) := by
  induction l with
  | nil => exact List.Perm.refl _
  | cons y l ih =>
    unfold insertBy
    split
    · exact (ih.cons y).trans (List.Perm.swap x y l)
    · exact List.Perm.refl _

theorem foldl_insertBy_perm (le : α → α → Bool) (l : List α) :
    ∀ acc, (l.foldl (fun acc x => insertBy le x acc) acc).Perm (l ++ acc) := by
  induction l with
  | nil => intro acc; simp
  | cons x xs ih =>
    intro acc
    simp only [List.foldl_cons, List.cons_append]
    exact (ih (insertBy le x acc)).trans
      ((List.Perm.append_left xs (insertBy_perm le x acc)).trans List.perm_middle)

theorem sortBy_perm (le : α → α → Bool) (l : List α) : (sortBy le l).Perm l := by
  simpa using foldl_insertBy_perm le l []

theorem mem_sortBy {le : α → α → Bool} {l : List α} {a : α} :
    a ∈ sortBy le l ↔ a ∈ l :=
  (sortBy_perm le l).mem_iff

theorem length_sortBy (le : α → α → Bool) (l : List α) :
    (sortBy le l).length = l.length :=
  (sortBy_perm le l).length_eq

theorem countP_sortBy (le : α → α → Bool) (p : α → Bool) (l : List α) :
    (sortBy le l).countP p = l.countP p :=
  (sortBy_perm le l).countP_eq p

theorem seqAt_append (l2 : List Char) :
    ∀ {pat l1 : List Char}, seqAt pat l1 = true → seqAt pat (l1 ++ l2) = true := by
  intro pat
  induction pat with
  | nil => intro l1 _; rfl
  | cons p ps ih =>
    intro l1 h
    cases l1 with
    | nil => simp [seqAt] at h
    | cons c cs =>
      simp only [seqAt, Bool.and_eq_true, beq_iff_eq] at h
      simp only [List.cons_append, seqAt, Bool.and_eq_true, beq_iff_eq]
      exact ⟨h.1, ih h.2⟩

theorem seqIn_append_left (l2 : List Char) :
    ∀ {pat l1 : List Char}, seqIn pat l1 = true → seqIn pat (l1 ++ l2) = true := by
  intro pat l1
  induction l1 with
  | nil =>
    intro h
    have hp : pat = [] := by
      cases pat with
      | nil => rfl
      | cons a as => simp [seqIn, List.isEmpty] at h
    subst hp
    cases l2 <;> simp [seqIn, seqAt]
  | cons c cs ih =>
    intro h
    simp only [seqIn, Bool.or_eq_true] at h
    simp only [List.cons_append, seqIn, Bool.or_eq_true]
    rcases h with h | h
    · exact Or.inl (seqAt_append l2 h)
    · exact Or.inr (ih h)

theorem containsText_append_left (s t pat : String)
    (h : containsText s pat = true) : containsText (s ++ t) pat = true := by
  have hd : (s ++ t).data = s.data ++ t.data := by
    cases s; cases t; rfl
  unfold containsText at h ⊢
  rw [hd]
  exact seqIn_append_left _ h

/-! ### The specification's block-confidence formula -/

/-- The per-block confidence formula exactly as the specification states it:
`max(0.1, baseConfidence * (1 - min(0.5, hoursAhead * 0.05)))`. -/
def specBlockConfidence (baseConfidence hoursAhead : ℚ) : ℚ :=
  max (1 / 10) (baseConfidence * (1 - min (1 / 2) (hoursAhead * (5 / 100))))

theorem calculateBlockConfidence_eq_spec (st : Option LearnerState) (b r : ℚ) :
    calculateBlockConfidence st b r =
      specBlockConfidence ((st.map (fun s => s.confidence)).getD (3 / 10))
        (diffHours b r) := rfl

theorem specBlockConfidence_antitone (base : ℚ) {h1 h2 : ℚ} (h : h1 ≤ h2) :
    specBlockConfidence base h2 ≤ specBlockConfidence base h1 := by
  unfold specBlockConfidence
  rcases le_or_lt base 0 with hb | hb
  · have d1 : min (1 / 2 : ℚ) (h1 * (5 / 100)) ≤ 1 / 2 := min_le_left _ _
    have d2 : min (1 / 2 : ℚ) (h2 * (5 / 100)) ≤ 1 / 2 := min_le_left _ _
    have p1 : base * (1 - min (1 / 2 : ℚ) (h1 * (5 / 100))) ≤ 0 := by nlinarith
    have p2 : base * (1 - min (1 / 2 : ℚ) (h2 * (5 / 100))) ≤ 0 := by nlinarith
    rw [max_eq_left (le_trans p1 (by norm_num)), max_eq_left (le_trans p2 (by norm_num))]
  · have hd : min (1 / 2 : ℚ) (h1 * (5 / 100)) ≤ min (1 / 2) (h2 * (5 / 100)) :=
      min_le_min (le_refl _) (by linarith)
    have hm : base * (1 - min (1 / 2 : ℚ) (h2 * (5 / 100))) ≤
        base * (1 - min (1 / 2) (h1 * (5 / 100))) :=
      mul_le_mul_of_nonneg_left (by linarith) hb.le
    exact max_le_max (le_refl _) hm

/-! ### Lemmas about the schedule generator -/

theorem mem_generateNapsLoop {ww nl : ℚ} {st : Option LearnerState} {ref : ℚ}
    {b : ScheduleBlock} :
    ∀ {fuel : ℕ} {cur : ℚ}, b ∈ generateNapsLoop ww nl st ref fuel cur →
      b.kind = .nap ∧ hourOf b.startM < 18 ∧
      b.confidence = calculateBlockConfidence st b.startM ref ∧
      b.rationale = generateRationale .nap st ww nl false := by
  intro fuel
  induction fuel with
  | zero => intro cur h; simp [generateNapsLoop] at h
  | succ n ih =>
    intro cur h
    rw [generateNapsLoop] at h
    split at h
    · simp at h
    · split at h
      · simp at h
      · rename_i hhour _
        rcases List.mem_cons.mp h with hb | hb
        · subst hb
          exact ⟨rfl, lt_of_not_ge hhour, rfl, rfl⟩
        · exact ih hb

theorem length_generateNapsLoop (ww nl : ℚ) (st : Option LearnerState) (ref : ℚ) :
    ∀ (fuel : ℕ) (cur : ℚ), (generateNapsLoop ww nl st ref fuel cur).length ≤ fuel := by
  intro fuel
  induction fuel with
  | zero => intro cur; simp [generateNapsLoop]
  | succ n ih =>
    intro cur
    rw [generateNapsLoop]
    split
    · simp
    · split
      · simp
      · simpa [List.length_cons] using Nat.succ_le_succ (ih _)

theorem mem_dayNaps {b : ScheduleBlock} {d : ℚ} {ss : List SleepSession}
    {st : Option LearnerState} {opts : ScheduleOptions} {now w0 n0 : ℚ}
    (hb : b ∈ dayNaps d ss st opts now w0 n0) :
    b.kind = .nap ∧ hourOf b.startM < 18 ∧
      b.confidence = calculateBlockConfidence st b.startM
        (scheduleReferenceTime opts now) := by
  simp only [dayNaps, generateNaps] at hb
  by_cases hw : jsTruthy opts.wakeWindowAdjustmentMin
  · rw [if_pos hw] at hb
    rcases List.mem_map.mp hb with ⟨a, ha, rfl⟩
    obtain ⟨h1, h2, h3, _⟩ := mem_generateNapsLoop ha
    exact ⟨h1, h2, h3⟩
  · rw [if_neg hw] at hb
    obtain ⟨h1, h2, h3, _⟩ := mem_generateNapsLoop hb
    exact ⟨h1, h2, h3⟩

theorem length_dayNaps_le (d : ℚ) (ss : List SleepSession)
    (st : Option LearnerState) (opts : ScheduleOptions) (now w0 n0 : ℚ) :
    (dayNaps d ss st opts now w0 n0).length ≤ SCHEDULE_CONFIG.maxNapsPerDay := by
  simp only [dayNaps, generateNaps]
  split
  · simpa [List.length_map] using length_generateNapsLoop _ _ _ _ _ _
  · exact length_generateNapsLoop _ _ _ _ _ _

theorem dayBedtime_spec (d : ℚ) (ss : List SleepSession)
    (st : Option LearnerState) (opts : ScheduleOptions) (now w0 n0 : ℚ) :
    (dayBedtime d ss st opts now w0 n0).kind = .bedtime ∧
    (dayBedtime d ss st opts now w0 n0).confidence =
      calculateBlockConfidence st (dayBedtime d ss st opts now w0 n0).startM
        (scheduleReferenceTime opts now) := by
  unfold dayBedtime
  split <;> exact ⟨rfl, rfl⟩

theorem dayWindDown_spec (d : ℚ) (ss : List SleepSession)
    (st : Option LearnerState) (opts : ScheduleOptions) (now w0 n0 : ℚ) :
    (dayWindDown d ss st opts now w0 n0).kind = .windDown ∧
    (dayWindDown d ss st opts now w0 n0).confidence =
      (st.map (fun s => s.confidence)).getD (3 / 10) ∧
    (dayWindDown d ss st opts now w0 n0).endM =
      (dayBedtime d ss st opts now w0 n0).startM := by
  unfold dayWindDown
  split <;> exact ⟨rfl, rfl, rfl⟩

theorem mem_generateDayScheduleBlocks {b : ScheduleBlock} {d : ℚ}
    {ss : List SleepSession} {st : Option LearnerState} {opts : ScheduleOptions}
    {now w0 n0 : ℚ}
    (hb : b ∈ generateDayScheduleBlocks d ss st opts now w0 n0) :
    b ∈ dayNaps d ss st opts now w0 n0 ∨
      b = dayWindDown d ss st opts now w0 n0 ∨
      b = dayBedtime d ss st opts now w0 n0 := by
  unfold generateDayScheduleBlocks at hb
  rcases List.mem_append.mp (mem_sortBy.mp hb) with h | h
  · exact Or.inl h
  · exact Or.inr (by simpa using h)

theorem dayBedtime_mem (d : ℚ) (ss : List SleepSession)
    (st : Option LearnerState) (opts : ScheduleOptions) (now w0 n0 : ℚ) :
    dayBedtime d ss st opts now w0 n0 ∈
      generateDayScheduleBlocks d ss st opts now w0 n0 := by
  unfold generateDayScheduleBlocks
  exact mem_sortBy.mpr (List.mem_append.mpr (Or.inr (by simp)))

theorem generateDaySchedule_ok {d : ℚ} {ss : List SleepSession}
    {st : Option LearnerState} {prof : BabyProfile} {opts : ScheduleOptions}
    {now : ℚ} {bs : List ScheduleBlock}
    (h : generateDaySchedule d ss st prof opts now = .ok bs) :
    ∃ w0 n0, getLearnedWakeWindow st prof now = .ok w0 ∧
      getLearnedNapLength st prof now = .ok n0 ∧
      bs = generateDayScheduleBlocks d ss st opts now w0 n0 := by
  unfold generateDaySchedule at h
  split at h
  · rename_i w0 n0 hw hn
    exact ⟨w0, n0, hw, hn, (Except.ok.inj h).symm⟩
  · exact absurd h (by simp)
  · exact absurd h (by simp)

theorem generateSchedule_ok {ss : List SleepSession} {st : Option LearnerState}
    {prof : BabyProfile} {opts : ScheduleOptions} {now : ℚ} {res : SchedulePair}
    (h : generateSchedule ss st prof opts now = .ok res) :
    ∃ w0 n0, getLearnedWakeWindow st prof now = .ok w0 ∧
      getLearnedNapLength st prof now = .ok n0 ∧
      res.today = (generateDayScheduleBlocks
          (startOfDay (scheduleReferenceTime opts now)) ss st opts now w0 n0).filter
        (fun b => b.startM > scheduleReferenceTime opts now ||
          ⌊b.startM⌋ == ⌊scheduleReferenceTime opts now⌋) ∧
      res.tomorrow = generateDayScheduleBlocks
        (startOfDay (scheduleReferenceTime opts now + 1440)) ss st opts now w0 n0 := by
  simp only [generateSchedule] at h
  split at h
  · rename_i todayBlocks hT
    split at h
    · rename_i tomorrowBlocks hTo
      cases h
      obtain ⟨w0, n0, hw, hn, rfl⟩ := generateDaySchedule_ok hT
      obtain ⟨w0', n0', hw', hn', rfl⟩ := generateDaySchedule_ok hTo
      rw [hw] at hw'
      rw [hn] at hn'
      cases hw'
      cases hn'
      exact ⟨w0, n0, hw, hn, rfl, rfl⟩
    · exact absurd h (by simp)
  · exact absurd h (by simp)

/-! ### Claim theorems -/

/-- C8: `validateRange(a, b)` fails with the invalid-format error exactly
when `a` or `b` cannot be parsed as a timestamp; fails with the
inverted-range error exactly when both parse but `b` is not strictly after
`a`; and succeeds for every other input. -/
theorem c8_validateRange_errors (a b : TimeText) :
    (validateRange a b = { isValid := false, error := some "Invalid date format" } ↔
      (a.parsed = none ∨ b.parsed = none)) ∧
    (validateRange a b =
        { isValid := false, error := some "End time must be after start time" } ↔
      ∃ s e, a.parsed = some s ∧ b.parsed = some e ∧ ¬ e > s) ∧
    (validateRange a b = { isValid := true, error := none } ↔
      ∃ s e, a.parsed = some s ∧ b.parsed = some e ∧ e > s) := by
  obtain ⟨pa⟩ := a
  obtain ⟨pb⟩ := b
  cases pa with
  | none =>
    cases pb <;>
      exact ⟨by simp [validateRange], by simp [validateRange], by simp [validateRange]⟩
  | some s =>
    cases pb with
    | none =>
      exact ⟨by simp [validateRange], by simp [validateRange], by simp [validateRange]⟩
    | some e =>
      by_cases hse : e > s
      · refine ⟨?_, ?_, ?_⟩
        · simp [validateRange, hse]
        · simp only [validateRange, if_pos hse]
          constructor
          · intro h; exact absurd h (by simp)
          · rintro ⟨s1, e1, hs1, he1, hne⟩
            cases hs1; cases he1; exact absurd hse hne
        · simp only [validateRange, if_pos hse]
          exact ⟨fun _ => ⟨s, e, rfl, rfl, hse⟩, fun _ => trivial⟩
      · refine ⟨?_, ?_, ?_⟩
        · simp only [validateRange, if_neg hse]
          constructor
          · intro h; exact absurd h (by simp)
          · rintro (h | h) <;> simp at h
        · simp only [validateRange, if_neg hse]
          exact ⟨fun _ => ⟨s, e, rfl, rfl, hse⟩, fun _ => trivial⟩
        · simp only [validateRange, if_neg hse]
          constructor
          · intro h; exact absurd h (by simp)
          · rintro ⟨s1, e1, hs1, he1, hgt⟩
            cases hs1; cases he1; exact absurd hgt hse

/-- C9: with fewer than 3 active (non-deleted) sessions, `generateCoachTips`
returns the empty tip list, and this insufficient-data gate raises no error:
the result is `ok` before any detector (and any fallible age computation)
runs. -/
theorem c9_insufficient_sessions (rand : ℕ → String) (nowM : ℚ)
    (sessions : List SleepSession) (st : Option LearnerState)
    (prof : BabyProfile)
    (h : (sessions.filter (fun s => !s.deleted)).length < 3) :
    generateCoachTips rand nowM sessions st prof = .ok [] := by
  unfold generateCoachTips
  rw [if_pos h]

/-- Witness for C9 at a concrete input: the empty session list together with
an unparseable birth date, showing the gate returns `ok []` even where the
detectors would have thrown. -/
theorem c9_insufficient_sessions_witness :
    (([] : List SleepSession).filter (fun s => !s.deleted)).length < 3 ∧
    generateCoachTips (fun _ => "a") 0 [] none
      { id := "b", name := "B", birthParsed := none } = .ok [] :=
  ⟨by decide,
    c9_insufficient_sessions (fun _ => "a") 0 [] none
      { id := "b", name := "B", birthParsed := none } (by decide)⟩

/-- C10: a concrete input on which `generateBedtime` returns a block starting
at local hour 22: the unclamped bedtime 21:53 is inside the 18–21 range, the
in-range branch rounds 53 minutes to 60, and the overflow carries into hour
22 — so the 18:00–21:00 clamp is not an invariant of the returned start. -/
theorem c10_bedtime_hour22 :
    hourOf ((200 * 1440 + 20 * 60 + 53 : ℚ) + 60) = 21 ∧
    minuteOf ((200 * 1440 + 20 * 60 + 53 : ℚ) + 60) = 53 ∧
    hourOf (generateBedtime (200 * 1440 + 20 * 60 + 53) 60 none
      (200 * 1440 + 600)).startM = 22 ∧
    minuteOf (generateBedtime (200 * 1440 + 20 * 60 + 53) 60 none
      (200 * 1440 + 600)).startM = 0 := by
  refine ⟨?_, ?_, ?_, ?_⟩ <;> with_unfolding_all rfl

/-- Shared inputs for the concrete witness instantiations: a profile born at
the local epoch, evaluated at 10:00 on day 200 (age about 6.6 months, so the
4-6m baseline bucket applies: 120-minute wake window, 90-minute naps). -/
def witnessProfile : BabyProfile := { id := "baby-1", name := "Baby", birthParsed := some 0 }

def witnessNow : ℚ := 200 * 1440 + 600

def witnessOpts : ScheduleOptions := { referenceTimeM := some witnessNow }

/-- A day schedule always contains its wind-down and bedtime blocks, so it is
never empty. -/
theorem generateDayScheduleBlocks_ne_nil (d : ℚ) (ss : List SleepSession)
    (st : Option LearnerState) (opts : ScheduleOptions) (now w0 n0 : ℚ) :
    generateDayScheduleBlocks d ss st opts now w0 n0 ≠ [] := by
  unfold generateDayScheduleBlocks
  intro hc
  have hlen := congrArg List.length hc
  rw [length_sortBy, List.length_append] at hlen
  simp at hlen

/-- Confidence shape of every block of a successful `generateDaySchedule`
call: non-wind-down blocks carry the decayed formula value, wind-down blocks
carry the raw base confidence. -/
theorem generateDaySchedule_confidence_shape {d : ℚ} {ss : List SleepSession}
    {st : Option LearnerState} {prof : BabyProfile} {opts : ScheduleOptions}
    {now : ℚ} {bs : List ScheduleBlock}
    (h : generateDaySchedule d ss st prof opts now = .ok bs) :
    ∀ b ∈ bs,
      (b.kind ≠ .windDown →
        b.confidence = calculateBlockConfidence st b.startM
          (scheduleReferenceTime opts now)) ∧
      (b.kind = .windDown →
        b.confidence = (st.map (fun s => s.confidence)).getD (3 / 10)) := by
  intro b hb
  obtain ⟨w0, n0, hw, hn, rfl⟩ := generateDaySchedule_ok h
  rcases mem_generateDayScheduleBlocks hb with hnap | hwd | hbt
  · obtain ⟨hk, _, hc⟩ := mem_dayNaps hnap
    refine ⟨fun _ => hc, fun hkw => ?_⟩
    rw [hk] at hkw
    simp at hkw
  · subst hwd
    obtain ⟨hk, hc, _⟩ := dayWindDown_spec d ss st opts now w0 n0
    exact ⟨fun hne => absurd hk hne, fun _ => hc⟩
  · subst hbt
    obtain ⟨hk, hc⟩ := dayBedtime_spec d ss st opts now w0 n0
    refine ⟨fun _ => hc, fun hkw => ?_⟩
    rw [hk] at hkw
    simp at hkw

/-- C1 counterexample: on a concrete schedule-generation call (no sessions,
null LearnerState, so baseConfidence is 0.3) not every produced block's
confidence equals `max(0.1, baseConfidence * (1 - min(0.5, hoursAhead *
0.05)))`: the wind-down block violates the formula. -/
theorem c1_block_confidence_cex :
    (generateDaySchedule (startOfDay witnessNow) [] none witnessProfile
        witnessOpts witnessNow).map
      (fun bs => bs.all (fun b =>
        b.confidence ==
          specBlockConfidence (3 / 10) (diffHours b.startM witnessNow))) =
      Except.ok false ∧
    (generateDaySchedule (startOfDay witnessNow) [] none witnessProfile
        witnessOpts witnessNow).map
      (fun bs => (bs.filter (fun b => b.kind == .windDown)).all (fun b =>
        b.confidence ==
          specBlockConfidence (3 / 10) (diffHours b.startM witnessNow))) =
      Except.ok false := by
  exact ⟨by with_unfolding_all rfl, by with_unfolding_all rfl⟩

/-- C1 (amended): every nap and bedtime block of a schedule-generation call
has confidence `max(0.1, baseConfidence * (1 - min(0.5, hoursAhead *
0.05)))`, with baseConfidence the LearnerState confidence (0.3 when the
state is null) and hoursAhead the block's start minus the call's reference
time in hours; wind-down blocks instead carry the undecayed baseConfidence. -/
theorem c1_block_confidence_amended (d : ℚ) (ss : List SleepSession)
    (st : Option LearnerState) (prof : BabyProfile) (opts : ScheduleOptions)
    (now : ℚ) (bs : List ScheduleBlock)
    (h : generateDaySchedule d ss st prof opts now = .ok bs) :
    ∀ b ∈ bs,
      (b.kind ≠ .windDown →
        b.confidence = specBlockConfidence
          ((st.map (fun s => s.confidence)).getD (3 / 10))
          (diffHours b.startM (scheduleReferenceTime opts now))) ∧
      (b.kind = .windDown →
        b.confidence = (st.map (fun s => s.confidence)).getD (3 / 10)) := by
  intro b hb
  obtain ⟨h1, h2⟩ := generateDaySchedule_confidence_shape h b hb
  refine ⟨fun hne => ?_, h2⟩
  rw [h1 hne, calculateBlockConfidence_eq_spec]

/-- Witness for C1 (amended) at the concrete no-session, null-state call. -/
theorem c1_block_confidence_witness :
    generateDayScheduleBlocks (startOfDay witnessNow) [] none witnessOpts
        witnessNow 120 90 ≠ [] ∧
    ∀ b ∈ generateDayScheduleBlocks (startOfDay witnessNow) [] none
        witnessOpts witnessNow 120 90,
      (b.kind ≠ .windDown →
        b.confidence = specBlockConfidence
          (((none : Option LearnerState).map (fun s => s.confidence)).getD (3 / 10))
          (diffHours b.startM (scheduleReferenceTime witnessOpts witnessNow))) ∧
      (b.kind = .windDown →
        b.confidence =
          ((none : Option LearnerState).map (fun s => s.confidence)).getD (3 / 10)) :=
  ⟨generateDayScheduleBlocks_ne_nil _ _ _ _ _ _ _,
    c1_block_confidence_amended (startOfDay witnessNow) [] none witnessProfile
      witnessOpts witnessNow _ (by with_unfolding_all rfl)⟩

/-- C2 counterexample: on a concrete schedule-generation call there are two
blocks where the one whose start is further ahead of the reference instant
has strictly greater confidence (a nap at +2h has confidence 0.27 while the
wind-down at +8h has confidence 0.3), refuting monotone non-increase. -/
theorem c2_monotonicity_cex :
    (generateDaySchedule (startOfDay witnessNow) [] none witnessProfile
        witnessOpts witnessNow).map
      (fun bs => bs.any (fun b1 => bs.any (fun b2 =>
        b1.startM < b2.startM && b1.confidence < b2.confidence))) =
      Except.ok true := by
  with_unfolding_all rfl

/-- C2 (amended): restricted to the blocks with decayed confidence (nap and
bedtime; wind-down blocks are excluded since they carry the undecayed base
confidence), block confidence is monotonically non-increasing in lead time
within one schedule-generation call. -/
theorem c2_monotonicity_amended (d : ℚ) (ss : List SleepSession)
    (st : Option LearnerState) (prof : BabyProfile) (opts : ScheduleOptions)
    (now : ℚ) (bs : List ScheduleBlock)
    (h : generateDaySchedule d ss st prof opts now = .ok bs) :
    ∀ b1 ∈ bs, ∀ b2 ∈ bs,
      b1.kind ≠ .windDown → b2.kind ≠ .windDown →
      b1.startM ≤ b2.startM → b2.confidence ≤ b1.confidence := by
  intro b1 h1 b2 h2 hk1 hk2 hle
  have e1 := (generateDaySchedule_confidence_shape h b1 h1).1 hk1
  have e2 := (generateDaySchedule_confidence_shape h b2 h2).1 hk2
  rw [e1, e2, calculateBlockConfidence_eq_spec, calculateBlockConfidence_eq_spec]
  apply specBlockConfidence_antitone
  unfold diffHours
  have hsub : b1.startM - scheduleReferenceTime opts now ≤
      b2.startM - scheduleReferenceTime opts now := sub_le_sub_right hle _
  exact (div_le_div_iff_of_pos_right (by norm_num : (0 : ℚ) < 60)).mpr hsub

/-- Witness for C2 (amended) at the concrete no-session, null-state call. -/
theorem c2_monotonicity_witness :
    generateDayScheduleBlocks (startOfDay witnessNow) [] none witnessOpts
        witnessNow 120 90 ≠ [] ∧
    ∀ b1 ∈ generateDayScheduleBlocks (startOfDay witnessNow) [] none
        witnessOpts witnessNow 120 90,
      ∀ b2 ∈ generateDayScheduleBlocks (startOfDay witnessNow) [] none
        witnessOpts witnessNow 120 90,
      b1.kind ≠ .windDown → b2.kind ≠ .windDown →
      b1.startM ≤ b2.startM → b2.confidence ≤ b1.confidence :=
  ⟨generateDayScheduleBlocks_ne_nil _ _ _ _ _ _ _,
    c2_monotonicity_amended (startOfDay witnessNow) [] none witnessProfile
      witnessOpts witnessNow _ (by with_unfolding_all rfl)⟩

/-- Rationale of a nap block generated with a null LearnerState and no
what-if flag: the age-baseline text. -/
theorem generateRationale_nap_none (w n : ℚ) :
    generateRationale .nap none w n false =
      "Based on age baseline: " ++ toString (jsRound w) ++ "min wake window, " ++
        toString (jsRound n) ++ "min nap" := by
  with_unfolding_all rfl

/-- Rationale of a bedtime block generated with a null LearnerState and no
what-if flag: a fixed text that does not mention the baseline. -/
theorem generateRationale_bedtime_none (w n : ℚ) :
    generateRationale .bedtime none w n false = "Age-appropriate bedtime window" := by
  with_unfolding_all rfl

/-- Rationale of a wind-down block generated without the what-if flag: a
fixed text that does not mention the baseline. -/
theorem generateRationale_windDown_any (st : Option LearnerState) (w n : ℚ) :
    generateRationale .windDown st w n false =
      "Start wind-down 30 minutes before sleep" := by
  cases st <;> with_unfolding_all rfl

/-- Rationale texts of all blocks of a day schedule generated with a null
LearnerState and no what-if adjustment. -/
theorem dayBlocks_rationales_none (d : ℚ) (ss : List SleepSession)
    (opts : ScheduleOptions) (now w0 n0 : ℚ)
    (hadj : opts.wakeWindowAdjustmentMin = none) :
    ∀ b ∈ generateDayScheduleBlocks d ss none opts now w0 n0,
      (b.kind = .nap → containsText b.rationale "baseline" = true) ∧
      (b.kind = .bedtime → b.rationale = "Age-appropriate bedtime window") ∧
      (b.kind = .windDown →
        b.rationale = "Start wind-down 30 minutes before sleep") := by
  intro b hb
  have hwfalse : jsTruthy opts.wakeWindowAdjustmentMin = false := by
    rw [hadj]; rfl
  rcases mem_generateDayScheduleBlocks hb with hnap | hwd | hbt
  · simp only [dayNaps, generateNaps, hwfalse, Bool.false_eq_true, if_false] at hnap
    obtain ⟨hk, _, _, hr⟩ := mem_generateNapsLoop hnap
    refine ⟨fun _ => ?_, fun hk2 => ?_, fun hk2 => ?_⟩
    · rw [hr, generateRationale_nap_none]
      have h0 : containsText "Based on age baseline: " "baseline" = true := by decide
      exact containsText_append_left _ _ _ (containsText_append_left _ _ _
        (containsText_append_left _ _ _ (containsText_append_left _ _ _ h0)))
    · rw [hk] at hk2; simp at hk2
    · rw [hk] at hk2; simp at hk2
  · subst hwd
    obtain ⟨hk, _, _⟩ := dayWindDown_spec d ss none opts now w0 n0
    refine ⟨fun hk2 => ?_, fun hk2 => ?_, fun _ => ?_⟩
    · rw [hk] at hk2; simp at hk2
    · rw [hk] at hk2; simp at hk2
    · show (dayWindDown d ss none opts now w0 n0).rationale = _
      simp only [dayWindDown, generateWindDown, hwfalse, Bool.false_eq_true, if_false]
      exact generateRationale_windDown_any none 0 0
  · subst hbt
    obtain ⟨hk, _⟩ := dayBedtime_spec d ss none opts now w0 n0
    refine ⟨fun hk2 => ?_, fun _ => ?_, fun hk2 => ?_⟩
    · rw [hk] at hk2; simp at hk2
    · show (dayBedtime d ss none opts now w0 n0).rationale = _
      simp only [dayBedtime, generateBedtime, hwfalse, Bool.false_eq_true, if_false]
      exact generateRationale_bedtime_none _ 0
    · rw [hk] at hk2; simp at hk2

/-- C3 counterexample: with an empty session list and a null LearnerState at
a concrete reference time, generateSchedule returns blocks, but not every
returned block's rationale contains the text "baseline" (the bedtime and
wind-down rationales do not). -/
theorem c3_baseline_rationale_cex :
    (generateSchedule [] none witnessProfile witnessOpts witnessNow).map
      (fun r => (r.today ++ r.tomorrow).all
        (fun b => containsText b.rationale "baseline")) = Except.ok false ∧
    (generateSchedule [] none witnessProfile witnessOpts witnessNow).map
      (fun r => decide (r.today ≠ [] ∧ r.tomorrow ≠ [])) = Except.ok true := by
  exact ⟨by with_unfolding_all rfl, by with_unfolding_all rfl⟩

/-- C3 (amended): with an empty session list, a null LearnerState and no
what-if adjustment, every successful generateSchedule call returns a
non-empty result (tomorrow always carries its wind-down and bedtime blocks),
built from the age baseline; every nap block's rationale contains
"baseline", while bedtime blocks read "Age-appropriate bedtime window" and
wind-down blocks read "Start wind-down 30 minutes before sleep" — texts
without "baseline". -/
theorem c3_empty_input_schedule (prof : BabyProfile) (opts : ScheduleOptions)
    (now : ℚ) (res : SchedulePair)
    (hadj : opts.wakeWindowAdjustmentMin = none)
    (h : generateSchedule [] none prof opts now = .ok res) :
    res.tomorrow ≠ [] ∧
    ∀ b ∈ res.today ++ res.tomorrow,
      (b.kind = .nap → containsText b.rationale "baseline" = true) ∧
      (b.kind = .bedtime → b.rationale = "Age-appropriate bedtime window") ∧
      (b.kind = .windDown →
        b.rationale = "Start wind-down 30 minutes before sleep") := by
  obtain ⟨w0, n0, hw, hn, hT, hTo⟩ := generateSchedule_ok h
  constructor
  · rw [hTo]
    exact generateDayScheduleBlocks_ne_nil _ _ _ _ _ _ _
  · intro b hb
    rcases List.mem_append.mp hb with h1 | h2
    · rw [hT] at h1
      exact dayBlocks_rationales_none _ _ _ _ _ _ hadj b (List.mem_filter.mp h1).1
    · rw [hTo] at h2
      exact dayBlocks_rationales_none _ _ _ _ _ _ hadj b h2

/-- Witness for C3 (amended) at the concrete reference time of day 200,
10:00 local. -/
theorem c3_empty_input_schedule_witness :
    (SchedulePair.mk
        ((generateDayScheduleBlocks (startOfDay witnessNow) [] none witnessOpts
            witnessNow 120 90).filter
          (fun b => b.startM > witnessNow || ⌊b.startM⌋ == ⌊(witnessNow : ℚ)⌋))
        (generateDayScheduleBlocks (startOfDay (witnessNow + 1440)) [] none
          witnessOpts witnessNow 120 90)).tomorrow ≠ [] ∧
    ∀ b ∈ (SchedulePair.mk
        ((generateDayScheduleBlocks (startOfDay witnessNow) [] none witnessOpts
            witnessNow 120 90).filter
          (fun b => b.startM > witnessNow || ⌊b.startM⌋ == ⌊(witnessNow : ℚ)⌋))
        (generateDayScheduleBlocks (startOfDay (witnessNow + 1440)) [] none
          witnessOpts witnessNow 120 90)).today ++
      (SchedulePair.mk
        ((generateDayScheduleBlocks (startOfDay witnessNow) [] none witnessOpts
            witnessNow 120 90).filter
          (fun b => b.startM > witnessNow || ⌊b.startM⌋ == ⌊(witnessNow : ℚ)⌋))
        (generateDayScheduleBlocks (startOfDay (witnessNow + 1440)) [] none
          witnessOpts witnessNow 120 90)).tomorrow,
      (b.kind = .nap → containsText b.rationale "baseline" = true) ∧
      (b.kind = .bedtime → b.rationale = "Age-appropriate bedtime window") ∧
      (b.kind = .windDown →
        b.rationale = "Start wind-down 30 minutes before sleep") :=
  c3_empty_input_schedule witnessProfile witnessOpts witnessNow _ rfl
    (by with_unfolding_all rfl)

/-- C6: for every input, a generated day schedule has no nap block starting
at local hour 18 or later, has at most `SCHEDULE_CONFIG.maxNapsPerDay = 3`
nap blocks, and every wind-down block's end timestamp equals the start
timestamp of a bedtime block of the same call. -/
theorem c6_schedule_invariants (d : ℚ) (ss : List SleepSession)
    (st : Option LearnerState) (prof : BabyProfile) (opts : ScheduleOptions)
    (now : ℚ) (bs : List ScheduleBlock)
    (h : generateDaySchedule d ss st prof opts now = .ok bs) :
    (∀ b ∈ bs, b.kind = .nap → hourOf b.startM < 18) ∧
    bs.countP (fun b => b.kind == .nap) ≤ SCHEDULE_CONFIG.maxNapsPerDay ∧
    (∀ b ∈ bs, b.kind = .windDown →
      ∃ c ∈ bs, c.kind = .bedtime ∧ b.endM = c.startM) := by
  obtain ⟨w0, n0, hw, hn, rfl⟩ := generateDaySchedule_ok h
  refine ⟨?_, ?_, ?_⟩
  · intro b hb hk
    rcases mem_generateDayScheduleBlocks hb with hnap | hwd | hbt
    · exact (mem_dayNaps hnap).2.1
    · subst hwd
      rw [(dayWindDown_spec d ss st opts now w0 n0).1] at hk
      simp at hk
    · subst hbt
      rw [(dayBedtime_spec d ss st opts now w0 n0).1] at hk
      simp at hk
  · unfold generateDayScheduleBlocks
    rw [countP_sortBy, List.countP_append]
    have h1 : (dayNaps d ss st opts now w0 n0).countP (fun b => b.kind == .nap) ≤
        SCHEDULE_CONFIG.maxNapsPerDay :=
      le_trans (List.countP_le_length _) (length_dayNaps_le d ss st opts now w0 n0)
    have h2 : ([dayWindDown d ss st opts now w0 n0,
        dayBedtime d ss st opts now w0 n0]).countP (fun b => b.kind == .nap) = 0 := by
      have hk1 := (dayWindDown_spec d ss st opts now w0 n0).1
      have hk2 := (dayBedtime_spec d ss st opts now w0 n0).1
      simp [List.countP_cons, hk1, hk2]
    rw [h2]
    simpa using h1
  · intro b hb hk
    rcases mem_generateDayScheduleBlocks hb with hnap | hwd | hbt
    · rw [(mem_dayNaps hnap).1] at hk
      simp at hk
    · subst hwd
      exact ⟨dayBedtime d ss st opts now w0 n0,
        dayBedtime_mem d ss st opts now w0 n0,
        (dayBedtime_spec d ss st opts now w0 n0).1,
        (dayWindDown_spec d ss st opts now w0 n0).2.2⟩
    · subst hbt
      rw [(dayBedtime_spec d ss st opts now w0 n0).1] at hk
      simp at hk

/-- Witness for C6 at the concrete no-session, null-state call. -/
theorem c6_schedule_invariants_witness :
    (∀ b ∈ generateDayScheduleBlocks (startOfDay witnessNow) [] none
        witnessOpts witnessNow 120 90, b.kind = .nap → hourOf b.startM < 18) ∧
    (generateDayScheduleBlocks (startOfDay witnessNow) [] none witnessOpts
        witnessNow 120 90).countP (fun b => b.kind == .nap) ≤
      SCHEDULE_CONFIG.maxNapsPerDay ∧
    (∀ b ∈ generateDayScheduleBlocks (startOfDay witnessNow) [] none
        witnessOpts witnessNow 120 90, b.kind = .windDown →
      ∃ c ∈ generateDayScheduleBlocks (startOfDay witnessNow) [] none
        witnessOpts witnessNow 120 90, c.kind = .bedtime ∧ b.endM = c.startM) :=
  c6_schedule_invariants (startOfDay witnessNow) [] none witnessProfile
    witnessOpts witnessNow _ (by with_unfolding_all rfl)

/-! ### Lemmas about the learner -/

theorem calculateConfidence_bounds (expFn sqrtFn : ℚ → ℚ) (now : ℚ)
    (ww : List WakeWindow) (naps : List NapInfo) (a b : ℚ) :
    1 / 10 ≤ calculateConfidence expFn sqrtFn now ww naps a b ∧
      calculateConfidence expFn sqrtFn now ww naps a b ≤ 1 := by
  simp only [calculateConfidence]
  split
  · norm_num
  · exact ⟨le_min (by norm_num) (le_max_left _ _), min_le_left _ _⟩

theorem calculateConfidence_low (expFn sqrtFn : ℚ → ℚ) (now : ℚ)
    (ww : List WakeWindow) (naps : List NapInfo) (a b : ℚ)
    (h : ww.length + naps.length < MIN_SESSIONS_FOR_LEARNING) :
    calculateConfidence expFn sqrtFn now ww naps a b = 1 / 10 := by
  simp only [calculateConfidence]
  rw [if_pos h]

theorem AGE_BASELINE_TABLE_wf (r : AgeRange) :
    (AGE_BASELINE_TABLE r).minWakeWindowMin ≤ (AGE_BASELINE_TABLE r).typicalWakeWindowMin ∧
    (AGE_BASELINE_TABLE r).typicalWakeWindowMin ≤ (AGE_BASELINE_TABLE r).maxWakeWindowMin ∧
    (AGE_BASELINE_TABLE r).minNapLengthMin ≤ (AGE_BASELINE_TABLE r).typicalNapLengthMin ∧
    (AGE_BASELINE_TABLE r).typicalNapLengthMin ≤ (AGE_BASELINE_TABLE r).maxNapLengthMin := by
  cases r <;> norm_num [AGE_BASELINE_TABLE]

theorem getBaselineForBaby_eq {birth : Option ℚ} {now a : ℚ}
    {baseline : AgeBaseline} {r : AgeRange}
    (hage : calculateAgeMonths birth now = .ok a) (hr : getAgeRange a = .ok r)
    (hb : getBaselineForBaby birth now = .ok baseline) :
    baseline = AGE_BASELINE_TABLE r := by
  unfold getBaselineForBaby at hb
  rw [hage] at hb
  replace hb : getBaselineForAge a = .ok baseline := hb
  unfold getBaselineForAge at hb
  rw [hr] at hb
  replace hb : Except.ok (AGE_BASELINE_TABLE r) = Except.ok baseline := hb
  exact (Except.ok.inj hb).symm

theorem clampWakeWindow_bounds {v a eww : ℚ} {r : AgeRange}
    (hr : getAgeRange a = .ok r) (h : clampWakeWindow v a = .ok eww) :
    (AGE_BASELINE_TABLE r).minWakeWindowMin ≤ eww ∧
      eww ≤ (AGE_BASELINE_TABLE r).maxWakeWindowMin := by
  unfold clampWakeWindow getBaselineForAge at h
  rw [hr] at h
  replace h : Except.ok (max (AGE_BASELINE_TABLE r).minWakeWindowMin
      (min (AGE_BASELINE_TABLE r).maxWakeWindowMin v)) = Except.ok eww := h
  obtain rfl := (Except.ok.inj h).symm
  have hwf := AGE_BASELINE_TABLE_wf r
  exact ⟨le_max_left _ _, max_le (le_trans hwf.1 hwf.2.1) (min_le_left _ _)⟩

theorem clampNapLength_bounds {v a enl : ℚ} {r : AgeRange}
    (hr : getAgeRange a = .ok r) (h : clampNapLength v a = .ok enl) :
    (AGE_BASELINE_TABLE r).minNapLengthMin ≤ enl ∧
      enl ≤ (AGE_BASELINE_TABLE r).maxNapLengthMin := by
  unfold clampNapLength getBaselineForAge at h
  rw [hr] at h
  replace h : Except.ok (max (AGE_BASELINE_TABLE r).minNapLengthMin
      (min (AGE_BASELINE_TABLE r).maxNapLengthMin v)) = Except.ok enl := h
  obtain rfl := (Except.ok.inj h).symm
  have hwf := AGE_BASELINE_TABLE_wf r
  exact ⟨le_max_left _ _, max_le (le_trans hwf.2.2.1 hwf.2.2.2) (min_le_left _ _)⟩

/-- C4: the confidence of every LearnerState returned by `updateLearner`
lies in `[0.1, 1]`; and whenever the usable observations (extracted wake
windows plus naps) number fewer than 3, the confidence is exactly 0.1. -/
theorem c4_confidence_bounds (expFn sqrtFn : ℚ → ℚ)
    (sessions : List SleepSession) (prof : BabyProfile)
    (prev : Option LearnerState) (now : ℚ) (st : LearnerState)
    (h : updateLearner expFn sqrtFn sessions prof prev now = .ok st) :
    (1 / 10 ≤ st.confidence ∧ st.confidence ≤ 1) ∧
    (∀ ww naps,
      extractWakeWindows (sessions.filter (fun s => !s.deleted)) prof.birthParsed = .ok ww →
      extractNaps (sessions.filter (fun s => !s.deleted)) prof.birthParsed = .ok naps →
      ww.length + naps.length < MIN_SESSIONS_FOR_LEARNING →
      st.confidence = 1 / 10) := by
  simp only [updateLearner] at h
  split at h
  · split at h
    · cases h
      exact ⟨⟨le_refl _, by norm_num⟩, fun _ _ _ _ _ => rfl⟩
    · exact absurd h (by simp)
    · exact absurd h (by simp)
  · split at h
    · rename_i wakeWindows naps0 hww hnn
      split at h
      · rename_i baseline age hbase hage
        split at h
        · rename_i eww enl heww henl
          cases h
          refine ⟨calculateConfidence_bounds expFn sqrtFn now wakeWindows naps0 eww enl,
            ?_⟩
          intro ww1 naps1 hww1 hnn1 hlt
          rw [hww1] at hww
          rw [hnn1] at hnn
          obtain rfl := Except.ok.inj hww
          obtain rfl := Except.ok.inj hnn
          exact calculateConfidence_low expFn sqrtFn now _ _ eww enl hlt
        · exact absurd h (by simp)
        · exact absurd h (by simp)
      · exact absurd h (by simp)
      · exact absurd h (by simp)
    · exact absurd h (by simp)
    · exact absurd h (by simp)

/-- Shared transcendental-function stand-ins for concrete learner runs (the
theorems hold for every `expFn`/`sqrtFn`). -/
def witnessExp : ℚ → ℚ := fun _ => 1 / 2

def witnessSqrt : ℚ → ℚ := fun _ => 1 / 2

/-- Witness for C4: the cold-start run (no sessions) returns confidence
exactly 0.1, which also satisfies the bounds. -/
theorem c4_confidence_bounds_witness :
    (1 / 10 ≤ (LearnerState.mk 1 90 120 witnessNow (1 / 10)).confidence ∧
      (LearnerState.mk 1 90 120 witnessNow (1 / 10)).confidence ≤ 1) ∧
    (∀ ww naps,
      extractWakeWindows (([] : List SleepSession).filter (fun s => !s.deleted))
        witnessProfile.birthParsed = .ok ww →
      extractNaps (([] : List SleepSession).filter (fun s => !s.deleted))
        witnessProfile.birthParsed = .ok naps →
      ww.length + naps.length < MIN_SESSIONS_FOR_LEARNING →
      (LearnerState.mk 1 90 120 witnessNow (1 / 10)).confidence = 1 / 10) :=
  c4_confidence_bounds witnessExp witnessSqrt [] witnessProfile none witnessNow
    (LearnerState.mk 1 90 120 witnessNow (1 / 10)) (by with_unfolding_all rfl)

/-- C5: for every session list with at least 3 active sessions, the learned
EWMA wake-window and nap-length of the LearnerState returned by
`updateLearner` lie within the [min, max] bounds of the age bucket matching
the baby's age in months (the bucket of the age computed at the same run). -/
theorem c5_ewma_bounds (expFn sqrtFn : ℚ → ℚ) (sessions : List SleepSession)
    (prof : BabyProfile) (prev : Option LearnerState) (now : ℚ)
    (st : LearnerState) (a : ℚ) (r : AgeRange)
    (hlen : MIN_SESSIONS_FOR_LEARNING ≤ (sessions.filter (fun s => !s.deleted)).length)
    (h : updateLearner expFn sqrtFn sessions prof prev now = .ok st)
    (ha : calculateAgeMonths prof.birthParsed now = .ok a)
    (hr : getAgeRange a = .ok r) :
    (AGE_BASELINE_TABLE r).minWakeWindowMin ≤ st.ewmaWakeWindowMin ∧
    st.ewmaWakeWindowMin ≤ (AGE_BASELINE_TABLE r).maxWakeWindowMin ∧
    (AGE_BASELINE_TABLE r).minNapLengthMin ≤ st.ewmaNapLengthMin ∧
    st.ewmaNapLengthMin ≤ (AGE_BASELINE_TABLE r).maxNapLengthMin := by
  simp only [updateLearner] at h
  split at h
  · rename_i hlt
    exact absurd hlt (by omega)
  · split at h
    · rename_i wakeWindows naps0 hww hnn
      split at h
      · rename_i baseline age hbase hage
        rw [ha] at hage
        obtain rfl := Except.ok.inj hage
        obtain rfl := getBaselineForBaby_eq ha hr hbase
        split at h
        · rename_i eww enl heww henl
          cases h
          have hwake : (AGE_BASELINE_TABLE r).minWakeWindowMin ≤ eww ∧
              eww ≤ (AGE_BASELINE_TABLE r).maxWakeWindowMin := by
            split at heww
            · obtain rfl := Except.ok.inj heww
              have hwf := AGE_BASELINE_TABLE_wf r
              exact ⟨hwf.1, hwf.2.1⟩
            · exact clampWakeWindow_bounds hr heww
          have hnap : (AGE_BASELINE_TABLE r).minNapLengthMin ≤ enl ∧
              enl ≤ (AGE_BASELINE_TABLE r).maxNapLengthMin := by
            split at henl
            · obtain rfl := Except.ok.inj henl
              have hwf := AGE_BASELINE_TABLE_wf r
              exact ⟨hwf.2.2.1, hwf.2.2.2⟩
            · exact clampNapLength_bounds hr henl
          exact ⟨hwake.1, hwake.2, hnap.1, hnap.2⟩
        · exact absurd h (by simp)
        · exact absurd h (by simp)
      · exact absurd h (by simp)
      · exact absurd h (by simp)
    · exact absurd h (by simp)
    · exact absurd h (by simp)

/-- Witness for C5 at a concrete run with 4 active sessions (two extracted
wake windows of 160 minutes and four naps), whose learned values 132 and 69
lie inside the 4-6m bucket bounds [90, 150] and [60, 120]. -/
theorem c5_ewma_bounds_witness :
    (AGE_BASELINE_TABLE .r4to6).minWakeWindowMin ≤
      (LearnerState.mk 1 69 132 witnessNow (13 / 20)).ewmaWakeWindowMin ∧
    (LearnerState.mk 1 69 132 witnessNow (13 / 20)).ewmaWakeWindowMin ≤
      (AGE_BASELINE_TABLE .r4to6).maxWakeWindowMin ∧
    (AGE_BASELINE_TABLE .r4to6).minNapLengthMin ≤
      (LearnerState.mk 1 69 132 witnessNow (13 / 20)).ewmaNapLengthMin ∧
    (LearnerState.mk 1 69 132 witnessNow (13 / 20)).ewmaNapLengthMin ≤
      (AGE_BASELINE_TABLE .r4to6).maxNapLengthMin :=
  c5_ewma_bounds witnessExp witnessSqrt
    [ { id := "s1", startM := 287160, endM := 287180 },
      { id := "s2", startM := 287340, endM := 287360 },
      { id := "s3", startM := 288540, endM := 288560 },
      { id := "s4", startM := 288720, endM := 288740 } ]
    witnessProfile none witnessNow (LearnerState.mk 1 69 132 witnessNow (13 / 20))
    (9620 / 1461) .r4to6
    (by with_unfolding_all decide) (by with_unfolding_all rfl)
    (by with_unfolding_all rfl) (by with_unfolding_all rfl)

/-! ### C7: determinism of the coach up to tip ids -/

/-- The fields of a `CoachTip` other than `id` (the only field fed by the
`Math.random()` stream). -/
structure TipCore where
  type : TipType
  title : String
  message : String
  justification : String
  severity : Severity
  relatedSessionIds : List String
  relatedDateKeys : List ℤ
  createdAtM : ℚ
deriving DecidableEq, Repr

/-- Forgets a tip's `id`. -/
def stripTip (t : CoachTip) : TipCore :=
  { type := t.type
    title := t.title
    message := t.message
    justification := t.justification
    severity := t.severity
    relatedSessionIds := t.relatedSessionIds
    relatedDateKeys := t.relatedDateKeys
    createdAtM := t.createdAtM }

theorem stripTip_detectShortNapStreak (r1 r2 : ℕ → String) (k1 k2 : ℕ)
    (now : ℚ) (ss : List SleepSession) (prof : BabyProfile) :
    (detectShortNapStreak r1 k1 now ss prof).map stripTip =
    (detectShortNapStreak r2 k2 now ss prof).map stripTip := by
  simp only [detectShortNapStreak]
  split <;> rfl

theorem stripTip_detectOvertiredWarning (r1 r2 : ℕ → String) (k1 k2 : ℕ)
    (now : ℚ) (ss : List SleepSession) (st : Option LearnerState)
    (prof : BabyProfile) :
    (detectOvertiredWarning r1 k1 now ss st prof).map (Option.map stripTip) =
    (detectOvertiredWarning r2 k2 now ss st prof).map (Option.map stripTip) := by
  simp only [detectOvertiredWarning]
  split
  · rfl
  · split
    · rfl
    · split <;> rfl

theorem stripTip_detectBedtimeShift (r1 r2 : ℕ → String) (k1 k2 : ℕ)
    (now : ℚ) (ss : List SleepSession) (st : Option LearnerState)
    (prof : BabyProfile) :
    (detectBedtimeShift r1 k1 now ss st prof).map (Option.map stripTip) =
    (detectBedtimeShift r2 k2 now ss st prof).map (Option.map stripTip) := by
  simp only [detectBedtimeShift]
  split
  · rfl
  · split
    · rfl
    · split <;> rfl

theorem stripTip_detectSplitNightLoop (r1 r2 : ℕ → String) (k1 k2 : ℕ)
    (now : ℚ) (recents : List SleepSession) :
    ∀ keys, (detectSplitNightLoop r1 k1 now recents keys).map stripTip =
      (detectSplitNightLoop r2 k2 now recents keys).map stripTip := by
  intro keys
  induction keys with
  | nil => rfl
  | cons dk rest ih =>
    simp only [detectSplitNightLoop]
    split
    · split
      · rfl
      · exact ih
    · exact ih

theorem stripTip_detectSplitNight (r1 r2 : ℕ → String) (k1 k2 : ℕ)
    (now : ℚ) (ss : List SleepSession) :
    (detectSplitNight r1 k1 now ss).map stripTip =
    (detectSplitNight r2 k2 now ss).map stripTip := by
  simp only [detectSplitNight]
  exact stripTip_detectSplitNightLoop r1 r2 k1 k2 now _ _

/-- The final tip comparator expressed on the id-free projection. -/
def tipCoreCmp (a b : TipCore) : ℤ :=
  let severityDiff := severityOrder b.severity - severityOrder a.severity
  if severityDiff ≠ 0 then severityDiff else diffMs b.createdAtM a.createdAtM

theorem map_insertBy (f : α → β) (le : α → α → Bool) (le2 : β → β → Bool)
    (hle : ∀ a b, le a b = le2 (f a) (f b)) (x : α) (l : List α) :
    (insertBy le x l).map f = insertBy le2 (f x) (l.map f) := by
  induction l with
  | nil => rfl
  | cons y l ih =>
    simp only [insertBy, List.map_cons]
    rw [hle]
    split
    · simp only [List.map_cons, ih]
    · rfl

theorem map_sortBy (f : α → β) (le : α → α → Bool) (le2 : β → β → Bool)
    (hle : ∀ a b, le a b = le2 (f a) (f b)) (l : List α) :
    (sortBy le l).map f = sortBy le2 (l.map f) := by
  unfold sortBy
  suffices hgen : ∀ acc, (l.foldl (fun acc x => insertBy le x acc) acc).map f =
      (l.map f).foldl (fun acc x => insertBy le2 x acc) (acc.map f) by
    simpa using hgen []
  induction l with
  | nil => intro acc; rfl
  | cons x xs ih =>
    intro acc
    simp only [List.foldl_cons, List.map_cons]
    rw [← map_insertBy f le le2 hle, ih (insertBy le x acc)]

theorem sorted_tips_strip_eq {l1 l2 : List CoachTip}
    (h : l1.map stripTip = l2.map stripTip) :
    (sortBy (fun a b => tipCmp a b ≤ 0) l1).map stripTip =
    (sortBy (fun a b => tipCmp a b ≤ 0) l2).map stripTip := by
  rw [map_sortBy stripTip (fun a b => tipCmp a b ≤ 0)
      (fun a b => tipCoreCmp a b ≤ 0) (fun a b => rfl) l1,
    map_sortBy stripTip (fun a b => tipCmp a b ≤ 0)
      (fun a b => tipCoreCmp a b ≤ 0) (fun a b => rfl) l2, h]

theorem ok_sorted_strip_eq {l1 l2 : List CoachTip}
    (h : l1.map stripTip = l2.map stripTip) :
    (Except.ok (ε := CoreError) (sortBy (fun a b => tipCmp a b ≤ 0) l1)).map
        (List.map stripTip) =
      (Except.ok (sortBy (fun a b => tipCmp a b ≤ 0) l2)).map
        (List.map stripTip) := by
  show Except.ok ((sortBy (fun a b => tipCmp a b ≤ 0) l1).map stripTip) =
    Except.ok ((sortBy (fun a b => tipCmp a b ≤ 0) l2).map stripTip)
  exact congrArg Except.ok (sorted_tips_strip_eq h)

theorem option_strip_cases {o1 o2 : Option CoachTip}
    (h : o1.map stripTip = o2.map stripTip) :
    (o1 = none ∧ o2 = none) ∨
      ∃ t1 t2, o1 = some t1 ∧ o2 = some t2 ∧ stripTip t1 = stripTip t2 := by
  cases o1 <;> cases o2 <;> simp_all

theorem except_strip_cases {x1 x2 : Except CoreError (Option CoachTip)}
    (h : x1.map (Option.map stripTip) = x2.map (Option.map stripTip)) :
    (∃ e, x1 = .error e ∧ x2 = .error e) ∨
      ∃ o1 o2, x1 = .ok o1 ∧ x2 = .ok o2 ∧
        o1.map stripTip = o2.map stripTip := by
  cases x1 <;> cases x2 <;> simp_all [Except.map]

theorem map_filterMap_strip_cons {a1 a2 : Option CoachTip}
    {l1 l2 : List (Option CoachTip)}
    (ha : a1.map stripTip = a2.map stripTip)
    (hl : (l1.filterMap id).map stripTip = (l2.filterMap id).map stripTip) :
    ((a1 :: l1).filterMap id).map stripTip =
      ((a2 :: l2).filterMap id).map stripTip := by
  cases a1 <;> cases a2 <;> simp_all [List.filterMap_cons]

theorem filterMap_strip_eq4 {a1 a2 b1 b2 c1 c2 d1 d2 : Option CoachTip}
    (ha : a1.map stripTip = a2.map stripTip)
    (hb : b1.map stripTip = b2.map stripTip)
    (hc : c1.map stripTip = c2.map stripTip)
    (hd : d1.map stripTip = d2.map stripTip) :
    (([a1, b1, c1, d1]).filterMap id).map stripTip =
      (([a2, b2, c2, d2]).filterMap id).map stripTip :=
  map_filterMap_strip_cons ha (map_filterMap_strip_cons hb
    (map_filterMap_strip_cons hc (map_filterMap_strip_cons hd rfl)))

/-- C7 (amended): two `generateCoachTips` calls with identical session
lists, LearnerState, BabyProfile and reference instant, but arbitrary (and
possibly different) `Math.random()` streams, return results that agree on
every field of every tip except `id` — equivalently, the id-stripped results
are equal. -/
theorem c7_determinism_amended (sessions : List SleepSession)
    (st : Option LearnerState) (prof : BabyProfile) (now : ℚ)
    (r1 r2 : ℕ → String) :
    (generateCoachTips r1 now sessions st prof).map (List.map stripTip) =
    (generateCoachTips r2 now sessions st prof).map (List.map stripTip) := by
  simp only [generateCoachTips]
  by_cases hlen : (sessions.filter (fun s => !s.deleted)).length < 3
  · rw [if_pos hlen, if_pos hlen]
  · rw [if_neg hlen, if_neg hlen]
    rcases except_strip_cases
        (stripTip_detectOvertiredWarning r1 r2
          (if (detectShortNapStreak r1 0 now
              (sessions.filter (fun s => !s.deleted)) prof).isSome then 1 else 0)
          (if (detectShortNapStreak r2 0 now
              (sessions.filter (fun s => !s.deleted)) prof).isSome then 1 else 0)
          now (sessions.filter (fun s => !s.deleted)) st prof) with
      ⟨e, h2a, h2b⟩ | ⟨o2a, o2b, h2a, h2b, h2s⟩
    · rw [h2a, h2b]
    · simp only [h2a, h2b]
      rcases except_strip_cases
          (stripTip_detectBedtimeShift r1 r2
            ((if (detectShortNapStreak r1 0 now
                (sessions.filter (fun s => !s.deleted)) prof).isSome then 1 else 0) +
              if o2a.isSome then 1 else 0)
            ((if (detectShortNapStreak r2 0 now
                (sessions.filter (fun s => !s.deleted)) prof).isSome then 1 else 0) +
              if o2b.isSome then 1 else 0)
            now (sessions.filter (fun s => !s.deleted)) st prof) with
        ⟨e, h3a, h3b⟩ | ⟨o3a, o3b, h3a, h3b, h3s⟩
      · simp only [h3a, h3b]
      · simp only [h3a, h3b]
        exact ok_sorted_strip_eq (filterMap_strip_eq4
          (stripTip_detectShortNapStreak r1 r2 0 0 now
            (sessions.filter (fun s => !s.deleted)) prof)
          h2s h3s
          (stripTip_detectSplitNight r1 r2 _ _ now
            (sessions.filter (fun s => !s.deleted))))

/-- Four short daytime naps on days 199-200: enough active sessions to pass
the coaching gate and to fire the short-nap-streak detector. -/
def c7Sessions : List SleepSession :=
  [ { id := "s1", startM := 287160, endM := 287180 },
    { id := "s2", startM := 287340, endM := 287360 },
    { id := "s3", startM := 288540, endM := 288560 },
    { id := "s4", startM := 288720, endM := 288740 } ]

/-- C7 counterexample: two `generateCoachTips` calls with identical session
lists, LearnerState, BabyProfile and reference instant, but different
`Math.random()` draws, return different tip lists (the tip ids differ), so
the call is not deterministic in the inputs the claim lists. -/
theorem c7_determinism_cex :
    generateCoachTips (fun _ => "aaaaaaaaa") witnessNow c7Sessions none
        witnessProfile ≠
      generateCoachTips (fun _ => "bbbbbbbbb") witnessNow c7Sessions none
        witnessProfile := by
  intro hc
  have hopt : (generateCoachTips (fun _ => "aaaaaaaaa") witnessNow c7Sessions none
      witnessProfile).toOption = (generateCoachTips (fun _ => "bbbbbbbbb")
      witnessNow c7Sessions none witnessProfile).toOption :=
    congrArg Except.toOption hc
  have hne : ((generateCoachTips (fun _ => "aaaaaaaaa") witnessNow c7Sessions none
      witnessProfile).toOption == (generateCoachTips (fun _ => "bbbbbbbbb")
      witnessNow c7Sessions none witnessProfile).toOption) = false := by
    with_unfolding_all rfl
  rw [hopt] at hne
  simp at hne
